import Mathlib

/-!
Verification of the Control Coverage State Engine of the `itsgassesment`
repository.  The definitions below are a shallow embedding of the Python
source (`src/coordinator/agent.py`, `src/main.py`, `src/utils/storage.py`):
Python dicts holding coverage entries become structures with `Option` fields
for the keys that may be absent, Python float arithmetic on the scoring
values becomes exact rational arithmetic (all multipliers are dyadic, so the
intermediate values coincide), and the FastAPI handlers become pure
functions returning `Except`.
-/

namespace ITSG

/-- The JSON value found under `evidence_strength_tier`: the extraction
service may return it as an integer or as a string
(`agent.py:_calculate_coverage` handles both).  A missing key is the
integer default 7 supplied by `evidence_data.get("evidence_strength_tier", 7)`. -/
inductive JTier where
  | jint (n : Int)
  | jstr (s : String)
deriving DecidableEq

/-- `if isinstance(strength_tier, str): try: int(...) except ValueError: 7`
from `_calculate_coverage`.  Python `int` on an unparsable string raises
`ValueError`, which the source turns into tier 7; `String.toInt?` models the
attempted parse. -/
def normalizeTier : JTier → Int
  | .jint n => n
  | .jstr s => (s.toInt?).getD 7

/-- `STRENGTH_SCORES = {1: 100, 2: 90, 3: 80, 4: 70, 5: 50, 6: 30, 7: 20}`
with the lookup `STRENGTH_SCORES.get(strength_tier, 20)`. -/
def strengthScoreFn (t : Int) : ℚ :=
  if t = 1 then 100
  else if t = 2 then 90
  else if t = 3 then 80
  else if t = 4 then 70
  else if t = 5 then 50
  else if t = 6 then 30
  else if t = 7 then 20
  else 20

/-- `COVERAGE_MULTIPLIERS = {"FULL": 1.0, "PARTIAL": 0.5, "MENTIONS": 0.25}`
with the lookup `COVERAGE_MULTIPLIERS.get(coverage, 0.25)`. -/
def coverageMult (c : String) : ℚ :=
  if c = "FULL" then 1
  else if c = "PARTIAL" then 1/2
  else if c = "MENTIONS" then 1/4
  else 1/4

/-- One element of an `evidence_by_control` list:
`{"document": filename, "evidence": {"coverage": ..., "evidence_strength_tier": ...}}`.
Only the fields the engine reads are modelled. -/
structure EvidenceItem where
  document : String
  coverage : String
  tier : JTier
deriving DecidableEq

/-- `effective_score = strength_score * coverage_mult` for one judgment. -/
def effectiveScore (ev : EvidenceItem) : ℚ :=
  strengthScoreFn (normalizeTier ev.tier) * coverageMult ev.coverage

/-- Accumulator of the per-control evidence loop in `_calculate_coverage`:
`best_weighted_score = 0`, `best_strength_tier = 7`, `has_full = False`. -/
structure BestAcc where
  bestScore : ℚ
  bestTier : Int
  hasFull : Bool
deriving DecidableEq

/-- One iteration of the evidence loop of `_calculate_coverage`. -/
def stepEvidence (acc : BestAcc) (ev : EvidenceItem) : BestAcc :=
  let tier := normalizeTier ev.tier
  let eff := effectiveScore ev
  let acc1 := if acc.bestScore < eff then { acc with bestScore := eff, bestTier := tier } else acc
  if ev.coverage = "FULL" then { acc1 with hasFull := true } else acc1

/-- The whole evidence loop of `_calculate_coverage` for one control. -/
def foldEvidence (items : List EvidenceItem) : BestAcc :=
  items.foldl stepEvidence ⟨0, 7, false⟩

/-- Python `round(x, 1)`: round to one decimal, ties to even
(the values produced by the engine are dyadic rationals, where float
`round` agrees with exact rounding). -/
def pyRound1 (q : ℚ) : ℚ :=
  let s := 10 * q
  let f : ℤ := ⌊s⌋
  let frac := s - (f : ℚ)
  let n : ℤ :=
    if frac < 1/2 then f
    else if 1/2 < frac then f + 1
    else if f % 2 = 0 then f else f + 1
  (n : ℚ) / 10

/-- A control from the profile catalog; the engine reads `id`, `name`,
`family` and `questions` (`control.get("questions", [])`). -/
structure Control where
  id : String
  name : String
  family : String
  questions : List String
deriving DecidableEq

/-- The variable part of a coverage-entry dict.  `_calculate_coverage`
builds entries of two shapes: controls with evidence carry
`evidence`, `best_evidence_strength` and `is_machine_verifiable`;
controls without evidence (and the not-applicable entries built by the
applicability phase) carry only the basic keys, with `questions` for
`no_coverage` entries. -/
inductive EntryData where
  | withEvidence (evidence : List EvidenceItem) (bestEvidenceStrength : Int)
      (isMachineVerifiable : Bool)
  | basic (questions : List String)
deriving DecidableEq

/-- A `ControlCoverageEntry` dict.  The override-metadata keys, which the
handlers in `main.py` add with assignment and remove with `.pop(key, None)`,
are modelled as `Option` fields (`none` = key absent). -/
structure Entry where
  controlId : String
  controlName : String
  family : String
  data : EntryData
  notApplicableReason : Option String := none
  markedNotApplicableAt : Option String := none
  originalStatus : Option String := none
  autoDetermined : Option Bool := none
  rejectionReason : Option String := none
  rejectedFrom : Option String := none
  rejectedAt : Option String := none
deriving DecidableEq

/-- `c.get("is_machine_verifiable", False)` on an entry dict. -/
def Entry.isMachineVerifiableOf (e : Entry) : Bool :=
  match e.data with
  | .withEvidence _ _ mv => mv
  | .basic _ => false

/-- `evidence_by_control`: a dict from control id to a list of evidence
items, modelled as an association list (insertion order preserved, as in a
Python dict). -/
abbrev EvidenceMap := List (String × List EvidenceItem)

/-- `control_id in evidence_map` / `evidence_map[control_id]`. -/
def lookupEv (m : EvidenceMap) (cid : String) : Option (List EvidenceItem) :=
  (List.find? (fun p => p.fst == cid) m).map Prod.snd

/-- The coverage dict assembled by `_calculate_coverage` and enriched by
`run_assessment` / the override handlers.  The `not_applicable` and
`rejected_evidence` keys may be absent in Python but every read uses
`.get(..., [])` and every write initialises them, so total fields with
default `[]` are observationally equal. -/
structure Coverage where
  fullCoverage : List Entry
  partialCoverage : List Entry
  noCoverage : List Entry
  notApplicable : List Entry
  rejectedEvidence : List Entry
  controlsWithEvidence : Nat
  controlsPartial : Nat
  controlsMissing : Nat
  controlsNotApplicable : Nat
  controlsRejectedEvidence : Nat
  coveragePercentage : ℚ
  qualityScore : ℚ
  machineVerifiableCount : Nat
  humanCuratedCount : Nat
deriving DecidableEq

/-- The classification loop of `_calculate_coverage`: returns the
`full_coverage`, `partial_coverage` and `no_coverage` lists plus
`total_weighted_score`. -/
def classifyControls (controls : List Control) (emap : EvidenceMap) :
    List Entry × List Entry × List Entry × ℚ :=
  match controls with
  | [] => ([], [], [], 0)
  | c :: rest =>
    let prev := classifyControls rest emap
    match lookupEv emap c.id with
    | some items =>
      let acc := foldEvidence items
      let e : Entry :=
        { controlId := c.id, controlName := c.name, family := c.family,
          data := .withEvidence items acc.bestTier (decide (acc.bestTier ≤ 4)) }
      if acc.hasFull then (e :: prev.1, prev.2.1, prev.2.2.1, acc.bestScore + prev.2.2.2)
      else (prev.1, e :: prev.2.1, prev.2.2.1, acc.bestScore + prev.2.2.2)
    | none =>
      (prev.1, prev.2.1,
       { controlId := c.id, controlName := c.name, family := c.family,
         data := .basic c.questions } :: prev.2.2.1, prev.2.2.2)

/-- `_calculate_coverage(required_controls, evidence_analysis)` from
`src/coordinator/agent.py`.  The returned dict has no `not_applicable` /
`rejected_evidence` keys; the corresponding fields are the `[]` / `0`
defaults that every later `.get` supplies. -/
def calculateCoverage (requiredControls : List Control) (emap : EvidenceMap) : Coverage :=
  let prev := classifyControls requiredControls emap
  let f := prev.1
  let p := prev.2.1
  let n := prev.2.2.1
  let tw := prev.2.2.2
  let total := requiredControls.length
  let maxPossible : ℚ := (total : ℚ) * 100
  let coveragePct : ℚ :=
    if 0 < total then ((f.length : ℚ) + (p.length : ℚ) * (1/2)) / (total : ℚ) * 100 else 0
  let quality : ℚ := if 0 < maxPossible then tw / maxPossible * 100 else 0
  let machineCount := ((f ++ p).filter (fun e => e.isMachineVerifiableOf)).length
  { fullCoverage := f, partialCoverage := p, noCoverage := n,
    notApplicable := [], rejectedEvidence := [],
    controlsWithEvidence := f.length, controlsPartial := p.length,
    controlsMissing := n.length,
    controlsNotApplicable := 0, controlsRejectedEvidence := 0,
    coveragePercentage := pyRound1 coveragePct,
    qualityScore := pyRound1 quality,
    machineVerifiableCount := machineCount,
    humanCuratedCount := f.length + p.length - machineCount }

/-- The summary dict written by `run_assessment` / the override handlers;
only the keys the modelled code reads or writes are kept. -/
structure Summary where
  totalControls : Nat
  controlsWithEvidence : Nat
  controlsPartial : Nat
  controlsMissing : Nat
  controlsNotApplicable : Nat
  controlsRejectedEvidence : Nat
  coveragePercentage : ℚ
deriving DecidableEq

/-- The analysis of one new document as returned by the external
extraction call in `reassess_with_new_document`:
`new_document.get("filename", "Unknown")` plus
`new_doc_analysis.get("controls_addressed", {})`, each value being the
`evidence` dict of one judgment. -/
structure NewDocAnalysis where
  filename : String
  controlsAddressed : List (String × (String × JTier))
deriving DecidableEq

/-- The slice of the `results` dict that the modelled operations read and
write: the applicability phase, the merged evidence map, the document
analyses, the coverage phase and the summary. -/
structure Results where
  applicableControls : List Control
  notApplicableFromApplicability : List Entry
  evidenceByControl : EvidenceMap
  documentAnalyses : List NewDocAnalysis
  coverage : Coverage
  summary : Summary
deriving DecidableEq

/-- Error responses of the override endpoints (`HTTPException` 400/404). -/
inductive ApiError where
  | validation (msg : String)
  | notFound (msg : String)
deriving DecidableEq

/-- `[c for c in coverage[source_list] if c.get("control_id") != control_id]`. -/
def filterOut (cid : String) (l : List Entry) : List Entry :=
  l.filter (fun e => e.controlId != cid)

/-- The search loop of `mark_control_not_applicable`: first match over the
lists `full_coverage`, `partial_coverage`, `no_coverage`,
`rejected_evidence`, in that order, together with the source list's name. -/
def findControl4 (cov : Coverage) (cid : String) : Option (Entry × String) :=
  match List.find? (fun e => e.controlId == cid) cov.fullCoverage with
  | some e => some (e, "full_coverage")
  | none =>
    match List.find? (fun e => e.controlId == cid) cov.partialCoverage with
    | some e => some (e, "partial_coverage")
    | none =>
      match List.find? (fun e => e.controlId == cid) cov.noCoverage with
      | some e => some (e, "no_coverage")
      | none =>
        match List.find? (fun e => e.controlId == cid) cov.rejectedEvidence with
        | some e => some (e, "rejected_evidence")
        | none => none

/-- The search loop of `reject_control_evidence`: `full_coverage` then
`partial_coverage` only. -/
def findControl2 (cov : Coverage) (cid : String) : Option (Entry × String) :=
  match List.find? (fun e => e.controlId == cid) cov.fullCoverage with
  | some e => some (e, "full_coverage")
  | none =>
    match List.find? (fun e => e.controlId == cid) cov.partialCoverage with
    | some e => some (e, "partial_coverage")
    | none => none

/-- The search loop of `restore_control`: `not_applicable` then
`rejected_evidence`. -/
def findControlRestore (cov : Coverage) (cid : String) : Option (Entry × String) :=
  match List.find? (fun e => e.controlId == cid) cov.notApplicable with
  | some e => some (e, "not_applicable")
  | none =>
    match List.find? (fun e => e.controlId == cid) cov.rejectedEvidence with
    | some e => some (e, "rejected_evidence")
    | none => none

/-- `coverage[source_list] = [c for c in coverage[source_list] if ...]`,
dispatching on the list name. -/
def removeByName (cov : Coverage) (name cid : String) : Coverage :=
  if name = "full_coverage" then { cov with fullCoverage := filterOut cid cov.fullCoverage }
  else if name = "partial_coverage" then
    { cov with partialCoverage := filterOut cid cov.partialCoverage }
  else if name = "no_coverage" then { cov with noCoverage := filterOut cid cov.noCoverage }
  else if name = "not_applicable" then
    { cov with notApplicable := filterOut cid cov.notApplicable }
  else if name = "rejected_evidence" then
    { cov with rejectedEvidence := filterOut cid cov.rejectedEvidence }
  else cov

/-- `coverage[target_list].append(entry)`, dispatching on the list name.
An unknown name would create a fresh dict key invisible to the five lists;
only the five names ever reach this function on states built by the
engine. -/
def appendByName (cov : Coverage) (name : String) (e : Entry) : Coverage :=
  if name = "full_coverage" then { cov with fullCoverage := cov.fullCoverage ++ [e] }
  else if name = "partial_coverage" then
    { cov with partialCoverage := cov.partialCoverage ++ [e] }
  else if name = "no_coverage" then { cov with noCoverage := cov.noCoverage ++ [e] }
  else if name = "not_applicable" then
    { cov with notApplicable := cov.notApplicable ++ [e] }
  else if name = "rejected_evidence" then
    { cov with rejectedEvidence := cov.rejectedEvidence ++ [e] }
  else cov

/-- The "Recalculate coverage statistics" block shared verbatim by the three
override handlers in `main.py`: recount the five lists, recompute
`coverage_percentage` with `not_applicable` excluded from the denominator,
and write the counts and the rounded percentage into both the coverage dict
and the summary.  Returns the updated results and `round(coverage_pct, 1)`
as included in the response. -/
def recomputeStats (res : Results) : Results × ℚ :=
  let cov := res.coverage
  let totalControls := res.summary.totalControls
  let naCount := cov.notApplicable.length
  let fullCount := cov.fullCoverage.length
  let partialCount := cov.partialCoverage.length
  let rejectedCount := cov.rejectedEvidence.length
  let noCovCount := cov.noCoverage.length
  let effectiveTotal : Int := (totalControls : Int) - (naCount : Int)
  let pct : ℚ :=
    if 0 < effectiveTotal then
      ((fullCount : ℚ) + (partialCount : ℚ) * (1/2)) / (effectiveTotal : ℚ) * 100
    else 0
  let cov1 :=
    { cov with
      controlsWithEvidence := fullCount, controlsPartial := partialCount,
      controlsMissing := noCovCount, controlsRejectedEvidence := rejectedCount,
      controlsNotApplicable := naCount, coveragePercentage := pyRound1 pct }
  let summ1 :=
    { res.summary with
      controlsWithEvidence := fullCount, controlsPartial := partialCount,
      controlsMissing := noCovCount, controlsRejectedEvidence := rejectedCount,
      controlsNotApplicable := naCount, coveragePercentage := pyRound1 pct }
  ({ res with coverage := cov1, summary := summ1 }, pyRound1 pct)

/-- `mark_control_not_applicable` from `src/main.py` (the state-transition
part of the endpoint; authentication and storage are outside the engine).
`now` is the value of `datetime.utcnow().isoformat()`. -/
def markControlNotApplicable (res : Results) (cid reason now : String) :
    Except ApiError (Results × ℚ) :=
  if reason.trim = "" then .error (.validation "Reason is required")
  else
    match findControl4 res.coverage cid with
    | none => .error (.notFound ("Control " ++ cid ++ " not found"))
    | some (e, srcName) =>
      let cov := removeByName res.coverage srcName cid
      let e1 := { e with rejectionReason := none, rejectedFrom := none, rejectedAt := none }
      let e2 := { e1 with
                  notApplicableReason := some reason.trim,
                  markedNotApplicableAt := some now,
                  originalStatus := some srcName,
                  autoDetermined := some false }
      let cov1 := { cov with notApplicable := cov.notApplicable ++ [e2] }
      .ok (recomputeStats { res with coverage := cov1 })

/-- `reject_control_evidence` from `src/main.py`. -/
def rejectControlEvidence (res : Results) (cid reason now : String) :
    Except ApiError (Results × ℚ) :=
  if reason.trim = "" then .error (.validation "Reason is required")
  else
    match findControl2 res.coverage cid with
    | none => .error (.notFound ("Control " ++ cid ++ " not found in controls with evidence"))
    | some (e, srcName) =>
      let cov := removeByName res.coverage srcName cid
      let e1 := { e with
                  rejectionReason := some reason.trim,
                  rejectedFrom := some srcName,
                  rejectedAt := some now }
      let cov1 := { cov with rejectedEvidence := cov.rejectedEvidence ++ [e1] }
      .ok (recomputeStats { res with coverage := cov1 })

/-- `restore_control` from `src/main.py`.  Returns the updated results, the
name of the list the entry was restored to, and the recomputed rounded
percentage. -/
def restoreControl (res : Results) (cid : String) :
    Except ApiError (Results × String × ℚ) :=
  match findControlRestore res.coverage cid with
  | none =>
    .error (.notFound ("Control " ++ cid ++ " not found in not applicable or rejected evidence"))
  | some (e, srcName) =>
    let cov := removeByName res.coverage srcName cid
    let originalList :=
      if srcName = "not_applicable" then
        if e.autoDetermined.getD false then "no_coverage"
        else e.originalStatus.getD "no_coverage"
      else e.rejectedFrom.getD "partial_coverage"
    let e1 := { e with
                rejectionReason := none, rejectedFrom := none, rejectedAt := none,
                notApplicableReason := none, markedNotApplicableAt := none,
                originalStatus := none, autoDetermined := none }
    let cov1 := appendByName cov originalList e1
    let (res1, pct) := recomputeStats { res with coverage := cov1 }
    .ok (res1, originalList, pct)

/-- One `{"control_id": ..., "reason": ...}` item of the classifier's JSON
response in `_assess_control_applicability`. -/
structure ClassifierItem where
  controlId : String
  reason : String
deriving DecidableEq

/-- The parsed classifier response
`{applicable: [...], not_applicable: [...]}`.  The `applicable` list is
parsed by the source into a set of ids that is never used afterwards;
only `not_applicable` matters. -/
structure ClassifierResult where
  applicable : List ClassifierItem
  notApplicable : List ClassifierItem
deriving DecidableEq

/-- The dict returned by `_assess_control_applicability`. -/
structure ApplicabilityOutcome where
  applicableControls : List Control
  notApplicableControls : List Entry
  totalAssessed : Nat
  applicableCount : Nat
  notApplicableCount : Nat
  note : Option String
deriving DecidableEq

/-- The per-control loop of `_assess_control_applicability`: a control
explicitly listed as not applicable becomes a not-applicable entry with the
first listed reason (`next(..., default)`) and `auto_determined = True`;
every other control defaults to applicable. -/
def splitApplicability (controls : List Control) (r : ClassifierResult) :
    List Control × List Entry :=
  match controls with
  | [] => ([], [])
  | c :: rest =>
    let prev := splitApplicability rest r
    if r.notApplicable.any (fun i => i.controlId == c.id) then
      let reason :=
        ((List.find? (fun i => i.controlId == c.id) r.notApplicable).map
          (fun i => i.reason)).getD "Determined not applicable based on system analysis"
      (prev.1,
       { controlId := c.id, controlName := c.name, family := c.family,
         data := .basic [], notApplicableReason := some reason,
         autoDetermined := some true } :: prev.2)
    else (c :: prev.1, prev.2)

/-- `_assess_control_applicability` from `src/coordinator/agent.py`.
`resp = none` models the external call raising, or a response in which no
JSON object can be located or parsed: all those paths fall through to the
same fail-open default return. -/
def assessControlApplicability (requiredControls : List Control)
    (resp : Option ClassifierResult) : ApplicabilityOutcome :=
  match resp with
  | none =>
    { applicableControls := requiredControls,
      notApplicableControls := [],
      totalAssessed := requiredControls.length,
      applicableCount := requiredControls.length,
      notApplicableCount := 0,
      note := some "Applicability assessment failed - all controls marked as applicable" }
  | some r =>
    let split := splitApplicability requiredControls r
    { applicableControls := split.1,
      notApplicableControls := split.2,
      totalAssessed := requiredControls.length,
      applicableCount := split.1.length,
      notApplicableCount := split.2.length,
      note := none }

/-- The results assembly of `run_assessment` (Phases 5-6 plus the summary):
calculate coverage over the applicable controls, then attach the
applicability phase's `not_applicable` list.  The summary dict of
`run_assessment` has no `controls_rejected_evidence` key; the handlers
write that key before ever reading it, so the 0 default is faithful. -/
def assembleResults (requiredControls : List Control)
    (applicability : ApplicabilityOutcome) (emap : EvidenceMap) : Results :=
  let cov0 := calculateCoverage applicability.applicableControls emap
  let cov :=
    { cov0 with
      notApplicable := applicability.notApplicableControls,
      controlsNotApplicable := applicability.notApplicableControls.length }
  { applicableControls := applicability.applicableControls,
    notApplicableFromApplicability := applicability.notApplicableControls,
    evidenceByControl := emap,
    documentAnalyses := [],
    coverage := cov,
    summary :=
      { totalControls := requiredControls.length,
        controlsNotApplicable := applicability.notApplicableControls.length,
        controlsWithEvidence := cov.controlsWithEvidence,
        controlsPartial := cov.controlsPartial,
        controlsMissing := cov.controlsMissing,
        controlsRejectedEvidence := 0,
        coveragePercentage := cov.coveragePercentage } }

/-- The merge loop of `reassess_with_new_document`: append
`{"document": filename, "evidence": evidence}` to the list keyed by the
control id, creating the key if absent. -/
def appendEv (m : EvidenceMap) (cid : String) (item : EvidenceItem) : EvidenceMap :=
  if (List.find? (fun p => p.fst == cid) m).isSome then
    m.map (fun p => if p.fst == cid then (p.fst, p.snd ++ [item]) else p)
  else m ++ [(cid, [item])]

/-- `for control_id, evidence in new_doc_analysis.get("controls_addressed", {}).items(): ...`. -/
def mergeNewDoc (m : EvidenceMap) (doc : NewDocAnalysis) : EvidenceMap :=
  doc.controlsAddressed.foldl
    (fun m p => appendEv m p.fst { document := doc.filename,
                                   coverage := p.snd.fst, tier := p.snd.snd }) m

/-- `reassess_with_new_document` from `src/coordinator/agent.py`.
`requiredControls` is `get_controls_for_profile(profile)` for the
snapshot's profile.  The applicable set is taken from the previous
applicability phase; the previous coverage's `not_applicable` and
`rejected_evidence` lists are re-attached to the freshly calculated
coverage, and the summary is rebuilt. -/
def reassessWithNewDocument (requiredControls : List Control) (res : Results)
    (doc : NewDocAnalysis) : Results :=
  let applicable := res.applicableControls
  let merged := mergeNewDoc res.evidenceByControl doc
  let c0 := calculateCoverage applicable merged
  let c1 :=
    { c0 with
      notApplicable := res.coverage.notApplicable,
      controlsNotApplicable := res.coverage.notApplicable.length,
      rejectedEvidence := res.coverage.rejectedEvidence,
      controlsRejectedEvidence := res.coverage.rejectedEvidence.length }
  { res with
    evidenceByControl := merged,
    documentAnalyses := res.documentAnalyses ++ [doc],
    coverage := c1,
    summary :=
      { totalControls := requiredControls.length,
        controlsNotApplicable := c1.controlsNotApplicable,
        controlsWithEvidence := c1.controlsWithEvidence,
        controlsPartial := c1.controlsPartial,
        controlsMissing := c1.controlsMissing,
        controlsRejectedEvidence := c1.controlsRejectedEvidence,
        coveragePercentage := c1.coveragePercentage } }

/-- The slice of one stored assessment record that `store_results` reads and
writes: the current results and the results of each run-history entry. -/
structure StoredAssessment where
  results : Option Results
  runHistory : List Results
deriving DecidableEq

/-- `store_results` from `src/utils/storage.py`: when `preserve_history` is
set and results exist, append the currently stored results to the run
history, then overwrite the stored results. -/
def storeResults (a : StoredAssessment) (newResults : Results)
    (preserveHistory : Bool) : StoredAssessment :=
  let hist :=
    match a.results with
    | some prev => if preserveHistory then a.runHistory ++ [prev] else a.runHistory
    | none => a.runHistory
  { results := some newResults, runHistory := hist }

/-- `reassess_with_documents` from `src/main.py`.  `get_assessment` returns
the stored dict itself (`storage.py`), and `reassess_with_new_document`
updates `assessment_results["phases"]` / `["summary"]` in place and returns
the same object; therefore, when `store_results` finally runs, the results
object held by the store is already the mutated (post-reassessment) one.
The explicit `{ a with results := some r1 }` before `storeResults` embeds
that aliasing. -/
def reassessWithDocuments (requiredControls : List Control)
    (a : StoredAssessment) (docs : List NewDocAnalysis) : StoredAssessment :=
  match a.results with
  | none => a
  | some r0 =>
    let r1 := docs.foldl (reassessWithNewDocument requiredControls) r0
    storeResults { a with results := some r1 } r1 true

/-- The tier normalisation of `get_evidence_quality_report` in
`src/main.py`: parse a string tier (`ValueError` to 7), then
`max(1, min(7, tier))`. -/
def qualityReportTier (v : JTier) : Int :=
  max 1 (min 7 (normalizeTier v))

/-! ### Concrete scenario states (spec §8, Scenarios A-D) -/

/-- Scenario control A. -/
def ctrlA : Control := ⟨"A", "Control A", "AC", []⟩

/-- Scenario control B. -/
def ctrlB : Control := ⟨"B", "Control B", "AC", []⟩

/-- Scenario control C. -/
def ctrlC : Control := ⟨"C", "Control C", "SC", []⟩

/-- Scenario evidence: A has one FULL/tier-1 judgment, B one PARTIAL/tier-5
judgment, C none. -/
def emapA : EvidenceMap :=
  [("A", [⟨"doc1", "FULL", .jint 1⟩]), ("B", [⟨"doc1", "PARTIAL", .jint 5⟩])]

/-- Applicability outcome with an empty classifier response: all three
controls applicable. -/
def applicAll : ApplicabilityOutcome :=
  assessControlApplicability [ctrlA, ctrlB, ctrlC] (some ⟨[], []⟩)

/-- Scenario A results: the completed assessment over {A, B, C}. -/
def resA : Results := assembleResults [ctrlA, ctrlB, ctrlC] applicAll emapA

/-- Scenario B: from Scenario A, mark C not-applicable. -/
def resB : Results :=
  match markControlNotApplicable resA "C" "no wireless capability" "t1" with
  | .ok (r, _) => r
  | .error _ => resA

/-- Scenario C: from Scenario B, restore C. -/
def resC : Results :=
  match restoreControl resB "C" with
  | .ok (r, _, _) => r
  | .error _ => resB

/-- Scenario D: from Scenario A, reject A's evidence. -/
def resD : Results :=
  match rejectControlEvidence resA "A" "stale policy doc" "t2" with
  | .ok (r, _) => r
  | .error _ => resA

/-- From Scenario D, additionally mark A not-applicable (A was in
`rejected_evidence`). -/
def resE : Results :=
  match markControlNotApplicable resD "A" "reconsidered" "t3" with
  | .ok (r, _) => r
  | .error _ => resD

/-- From `resE`, restore A: it returns to `rejected_evidence` (its stored
`original_status`). -/
def resF : Results :=
  match restoreControl resE "A" with
  | .ok (r, _, _) => r
  | .error _ => resE

/-- A new document whose extraction addresses no control. -/
def docEmpty : NewDocAnalysis := ⟨"new.pdf", []⟩

/-- A new document whose extraction yields a FULL/tier-1 judgment for C. -/
def docC : NewDocAnalysis := ⟨"new.pdf", [("C", ("FULL", .jint 1))]⟩

/-- Evidence where both A and B carry a FULL/tier-1 judgment and C has
none. -/
def emapAB : EvidenceMap :=
  [("A", [⟨"doc1", "FULL", .jint 1⟩]), ("B", [⟨"doc1", "FULL", .jint 1⟩])]

/-- The completed assessment over {A, B, C} with A and B fully covered. -/
def resAB : Results :=
  assembleResults [ctrlA, ctrlB, ctrlC]
    (assessControlApplicability [ctrlA, ctrlB, ctrlC] (some ⟨[], []⟩)) emapAB

/-- `resAB` after marking A not-applicable. -/
def resABmarked : Results :=
  match markControlNotApplicable resAB "A" "not relevant" "t1" with
  | .ok (r, _) => r
  | .error _ => resAB

/-- `resABmarked` after a reassessment with a document addressing no
control: A is reclassified into `full_coverage` (the applicability
phase's applicable set still contains it) while remaining in the
overlaid `not_applicable` list. -/
def resABreassessed : Results :=
  reassessWithNewDocument [ctrlA, ctrlB, ctrlC] resABmarked docEmpty

/-- `resABreassessed` after additionally marking C not-applicable. -/
def resABfinal : Results :=
  match markControlNotApplicable resABreassessed "C" "site decommissioned" "t2" with
  | .ok (r, _) => r
  | .error _ => resABreassessed

/-! ### Counting helpers for the partition invariant -/

/-- Number of entries of a list carrying a given control id. -/
def countIds : List Entry → String → Nat
  | [], _ => 0
  | e :: r, cid => (if e.controlId = cid then 1 else 0) + countIds r cid

/-- Number of occurrences of a control id across the five status lists. -/
def count5 (cov : Coverage) (cid : String) : Nat :=
  countIds cov.fullCoverage cid + countIds cov.partialCoverage cid +
    countIds cov.noCoverage cid + countIds cov.notApplicable cid +
    countIds cov.rejectedEvidence cid

/-- Invariant I1, counting form: no control id occurs in more than one of
the five lists (nor twice in one list), and every id of the given set
occurs. -/
def PartitionInv (applicableIds : List String) (cov : Coverage) : Prop :=
  (∀ cid, count5 cov cid ≤ 1) ∧ ∀ cid ∈ applicableIds, count5 cov cid = 1

/-- The five list names of the coverage dict. -/
def ValidListName (s : String) : Prop :=
  s = "full_coverage" ∨ s = "partial_coverage" ∨ s = "no_coverage" ∨
    s = "not_applicable" ∨ s = "rejected_evidence"

/-- Restoration metadata points at real lists: the target
`restore_control` computes for every entry of `not_applicable` and
`rejected_evidence` is one of the five list names.  This holds for every
state built by the engine, whose stored `original_status` / `rejected_from`
values are the source-list names recorded by the override handlers. -/
def RestorableNames (cov : Coverage) : Prop :=
  (∀ e ∈ cov.notApplicable, ValidListName (e.originalStatus.getD "no_coverage")) ∧
    ∀ e ∈ cov.rejectedEvidence, ValidListName (e.rejectedFrom.getD "partial_coverage")

/-- Number of controls of a list carrying a given id. -/
def countCtrl : List Control → String → Nat
  | [], _ => 0
  | c :: r, d => (if c.id = d then 1 else 0) + countCtrl r d

/-- The best effective score an entry's stored evidence yields (spec §4.3,
"Σ(bestEffectiveScore per control)"; entries without evidence contribute
0). -/
def entryBestScore (e : Entry) : ℚ :=
  match e.data with
  | .withEvidence items _ _ => (foldEvidence items).bestScore
  | .basic _ => 0

/-- Follows the spec's words (I2 / §4.3): `qualityScore` as a pure function
of the five lists' current contents, with
`effectiveTotal = totalRequired − |NOT_APPLICABLE|`. -/
def specQualityScore (cov : Coverage) (totalRequired : Nat) : ℚ :=
  let effectiveTotal : Int := (totalRequired : Int) - (cov.notApplicable.length : Int)
  if 0 < effectiveTotal then
    ((cov.fullCoverage ++ cov.partialCoverage).map entryBestScore).sum /
      ((effectiveTotal : ℚ) * 100) * 100
  else 0

/-- Follows the spec's words (I2 / §4.3): `machineVerifiableCount` as a pure
function of the five lists' current contents. -/
def specMachineVerifiableCount (cov : Coverage) : Nat :=
  ((cov.fullCoverage ++ cov.partialCoverage).filter (fun e => e.isMachineVerifiableOf)).length

/-- Follows the spec's words (§4.3): `coveragePercentage` as a pure function
of the five lists' current contents and the required total. -/
def specCoveragePct (cov : Coverage) (totalControls : Nat) : ℚ :=
  let effectiveTotal : Int := (totalControls : Int) - (cov.notApplicable.length : Int)
  if 0 < effectiveTotal then
    ((cov.fullCoverage.length : ℚ) + (cov.partialCoverage.length : ℚ) * (1/2)) /
      (effectiveTotal : ℚ) * 100
  else 0

/-- A one-control assessment: A with a FULL/tier-1 judgment. -/
def resOne : Results :=
  assembleResults [ctrlA] (assessControlApplicability [ctrlA] (some ⟨[], []⟩))
    [("A", [⟨"doc1", "FULL", .jint 1⟩])]

/-- `resOne` after marking A not-applicable. -/
def resOneMarked : Results :=
  match markControlNotApplicable resOne "A" "not relevant" "t1" with
  | .ok (r, _) => r
  | .error _ => resOne

/-- All override-metadata keys popped, as the restore handler leaves an
entry. -/
def stripMeta (e : Entry) : Entry :=
  { e with notApplicableReason := none, markedNotApplicableAt := none,
           originalStatus := none, autoDetermined := none,
           rejectionReason := none, rejectedFrom := none, rejectedAt := none }

/-- The entry `mark_control_not_applicable` appends: rejection metadata
popped, not-applicable metadata recorded. -/
def markedEntry (e : Entry) (reason now src : String) : Entry :=
  { e with rejectionReason := none, rejectedFrom := none, rejectedAt := none,
           notApplicableReason := some reason.trim, markedNotApplicableAt := some now,
           originalStatus := some src, autoDetermined := some false }

/-- The successful result of `mark_control_not_applicable` once the entry
and its source list are known. -/
def markOutcome (res : Results) (cid reason now src : String) (e : Entry) : Results × ℚ :=
  let cov := removeByName res.coverage src cid
  recomputeStats
    { res with coverage :=
        { cov with notApplicable := cov.notApplicable ++ [markedEntry e reason now src] } }

/-- The coverage with the control filtered out of `not_applicable`. -/
def removeFromNA (cov : Coverage) (cid : String) : Coverage :=
  { cov with notApplicable := filterOut cid cov.notApplicable }

/-- The successful result of `restore_control` for an entry found in
`not_applicable` with restore target `src`. -/
def restoreOutcome (res1 : Results) (cid src : String) (e2 : Entry) : Results × ℚ :=
  recomputeStats
    { res1 with coverage := appendByName (removeFromNA res1.coverage cid) src (stripMeta e2) }

/-- The `no_coverage` entry `_calculate_coverage` builds for control C in
Scenario A. -/
def entryC : Entry :=
  { controlId := "C", controlName := "Control C", family := "SC", data := .basic [] }

/-- Sum of the five status lists' lengths. -/
def sizeSum (cov : Coverage) : Nat :=
  cov.fullCoverage.length + cov.partialCoverage.length + cov.noCoverage.length +
    cov.notApplicable.length + cov.rejectedEvidence.length

theorem countIds_append (l r : List Entry) (cid : String) :
    countIds (l ++ r) cid = countIds l cid + countIds r cid := by
  induction l with
  | nil => simp [countIds]
  | cons e t ih => simp [countIds, ih]; omega

theorem countIds_filterOut_self (l : List Entry) (cid : String) :
    countIds (filterOut cid l) cid = 0 := by
  induction l with
  | nil => rfl
  | cons e t ih =>
    by_cases h : e.controlId = cid
    · have hb : (e.controlId != cid) = false := by simp [h]
      simpa [filterOut, List.filter_cons, hb] using ih
    · have hb : (e.controlId != cid) = true := by simp [h]
      simpa [filterOut, List.filter_cons, hb, countIds, h] using ih

theorem countIds_filterOut_ne (l : List Entry) (cid d : String) (h : d ≠ cid) :
    countIds (filterOut cid l) d = countIds l d := by
  induction l with
  | nil => rfl
  | cons e t ih =>
    by_cases he : e.controlId = cid
    · have hb : (e.controlId != cid) = false := by simp [he]
      have hd : e.controlId ≠ d := by rw [he]; exact fun hx => h hx.symm
      simp only [filterOut, List.filter_cons, hb, if_false, Bool.false_eq_true, ite_false]
      simp only [filterOut] at ih
      simp [countIds, hd, ih]
    · have hb : (e.controlId != cid) = true := by simp [he]
      simp only [filterOut, List.filter_cons, hb, if_true]
      simp only [filterOut] at ih
      simp [countIds, ih]

theorem find_controlId_eq {l : List Entry} {cid : String} {e : Entry}
    (h : List.find? (fun x => x.controlId == cid) l = some e) : e.controlId = cid := by
  have := List.find?_some h
  simpa using this

theorem countIds_pos_of_find {l : List Entry} {cid : String} {e : Entry}
    (h : List.find? (fun x => x.controlId == cid) l = some e) :
    1 ≤ countIds l cid := by
  induction l with
  | nil => simp at h
  | cons x t ih =>
    by_cases hx : x.controlId = cid
    · simp [countIds, hx]
    · rw [List.find?_cons] at h
      have hb : (x.controlId == cid) = false := by simpa using hx
      rw [hb] at h
      have := ih h
      simp [countIds, hx]
      omega

theorem find_none_of_count0 {l : List Entry} {cid : String}
    (h : countIds l cid = 0) :
    List.find? (fun x => x.controlId == cid) l = none := by
  induction l with
  | nil => rfl
  | cons x t ih =>
    by_cases hx : x.controlId = cid
    · simp [countIds, hx] at h
    · simp [countIds, hx] at h
      rw [List.find?_cons]
      have hb : (x.controlId == cid) = false := by simpa using hx
      rw [hb]
      exact ih h

theorem filterOut_of_count0 {l : List Entry} {cid : String}
    (h : countIds l cid = 0) : filterOut cid l = l := by
  induction l with
  | nil => rfl
  | cons x t ih =>
    by_cases hx : x.controlId = cid
    · simp [countIds, hx] at h
    · simp [countIds, hx] at h
      have hb : (x.controlId != cid) = true := by simp [hx]
      simp only [filterOut, List.filter_cons, hb, if_true]
      simp only [filterOut] at ih
      rw [ih h]

theorem find_append_last {l : List Entry} {cid : String} {e : Entry}
    (h : countIds l cid = 0) (he : e.controlId = cid) :
    List.find? (fun x => x.controlId == cid) (l ++ [e]) = some e := by
  induction l with
  | nil => simp [List.find?, he]
  | cons x t ih =>
    by_cases hx : x.controlId = cid
    · simp [countIds, hx] at h
    · simp [countIds, hx] at h
      have hb : (x.controlId == cid) = false := by simpa using hx
      simpa [List.find?_cons, hb] using ih h

theorem count5_recomputeStats (res : Results) (d : String) :
    count5 (recomputeStats res).1.coverage d = count5 res.coverage d := rfl

theorem count5_appendByName (cov : Coverage) (name : String) (e : Entry)
    (hn : ValidListName name) (d : String) :
    count5 (appendByName cov name e) d =
      count5 cov d + (if e.controlId = d then 1 else 0) := by
  rcases hn with h | h | h | h | h <;> subst h <;>
    simp [appendByName, count5, countIds_append, countIds] <;> omega

theorem findControl4_cases {cov : Coverage} {cid : String} {e : Entry} {src : String}
    (h : findControl4 cov cid = some (e, src)) :
    (src = "full_coverage" ∧
      List.find? (fun x => x.controlId == cid) cov.fullCoverage = some e) ∨
    (src = "partial_coverage" ∧
      List.find? (fun x => x.controlId == cid) cov.partialCoverage = some e) ∨
    (src = "no_coverage" ∧
      List.find? (fun x => x.controlId == cid) cov.noCoverage = some e) ∨
    (src = "rejected_evidence" ∧
      List.find? (fun x => x.controlId == cid) cov.rejectedEvidence = some e) := by
  unfold findControl4 at h
  cases h1 : List.find? (fun x => x.controlId == cid) cov.fullCoverage with
  | some e1 => rw [h1] at h; injection h with h; injection h with h2 h3
               exact Or.inl ⟨h3.symm, by rw [h2]⟩
  | none =>
    rw [h1] at h
    cases h2 : List.find? (fun x => x.controlId == cid) cov.partialCoverage with
    | some e2 => rw [h2] at h; injection h with h; injection h with ha hb
                 exact Or.inr (Or.inl ⟨hb.symm, by rw [ha]⟩)
    | none =>
      rw [h2] at h
      cases h3 : List.find? (fun x => x.controlId == cid) cov.noCoverage with
      | some e3 => rw [h3] at h; injection h with h; injection h with ha hb
                   exact Or.inr (Or.inr (Or.inl ⟨hb.symm, by rw [ha]⟩))
      | none =>
        rw [h3] at h
        cases h4 : List.find? (fun x => x.controlId == cid) cov.rejectedEvidence with
        | some e4 => rw [h4] at h; injection h with h; injection h with ha hb
                     exact Or.inr (Or.inr (Or.inr ⟨hb.symm, by rw [ha]⟩))
        | none => rw [h4] at h; exact absurd h (by simp)

theorem findControl2_cases {cov : Coverage} {cid : String} {e : Entry} {src : String}
    (h : findControl2 cov cid = some (e, src)) :
    (src = "full_coverage" ∧
      List.find? (fun x => x.controlId == cid) cov.fullCoverage = some e) ∨
    (src = "partial_coverage" ∧
      List.find? (fun x => x.controlId == cid) cov.partialCoverage = some e) := by
  unfold findControl2 at h
  cases h1 : List.find? (fun x => x.controlId == cid) cov.fullCoverage with
  | some e1 => rw [h1] at h; injection h with h; injection h with h2 h3
               exact Or.inl ⟨h3.symm, by rw [h2]⟩
  | none =>
    rw [h1] at h
    cases h2 : List.find? (fun x => x.controlId == cid) cov.partialCoverage with
    | some e2 => rw [h2] at h; injection h with h; injection h with ha hb
                 exact Or.inr ⟨hb.symm, by rw [ha]⟩
    | none => rw [h2] at h; exact absurd h (by simp)

theorem findControlRestore_cases {cov : Coverage} {cid : String} {e : Entry} {src : String}
    (h : findControlRestore cov cid = some (e, src)) :
    (src = "not_applicable" ∧
      List.find? (fun x => x.controlId == cid) cov.notApplicable = some e) ∨
    (src = "rejected_evidence" ∧
      List.find? (fun x => x.controlId == cid) cov.rejectedEvidence = some e) := by
  unfold findControlRestore at h
  cases h1 : List.find? (fun x => x.controlId == cid) cov.notApplicable with
  | some e1 => rw [h1] at h; injection h with h; injection h with h2 h3
               exact Or.inl ⟨h3.symm, by rw [h2]⟩
  | none =>
    rw [h1] at h
    cases h2 : List.find? (fun x => x.controlId == cid) cov.rejectedEvidence with
    | some e2 => rw [h2] at h; injection h with h; injection h with ha hb
                 exact Or.inr ⟨hb.symm, by rw [ha]⟩
    | none => rw [h2] at h; exact absurd h (by simp)

theorem count5_markPreserved {res : Results} {cid reason now : String}
    {res1 : Results} {pct : ℚ}
    (hInv : ∀ d, count5 res.coverage d ≤ 1)
    (h : markControlNotApplicable res cid reason now = .ok (res1, pct)) :
    ∀ d, count5 res1.coverage d = count5 res.coverage d := by
  intro d
  unfold markControlNotApplicable at h
  by_cases hr : reason.trim = ""
  · rw [if_pos hr] at h; exact absurd h (by simp)
  rw [if_neg hr] at h
  cases h4 : findControl4 res.coverage cid with
  | none => rw [h4] at h; exact absurd h (by simp)
  | some pr =>
    obtain ⟨e, src⟩ := pr
    rw [h4] at h
    simp only [Except.ok.injEq] at h
    have h1 := congrArg Prod.fst h
    simp only at h1
    rw [← h1, count5_recomputeStats]
    rcases findControl4_cases h4 with ⟨hs, hf⟩ | ⟨hs, hf⟩ | ⟨hs, hf⟩ | ⟨hs, hf⟩ <;>
      subst hs <;>
      · have hcid : e.controlId = cid := find_controlId_eq hf
        have hpos := countIds_pos_of_find hf
        have hle := hInv cid
        by_cases hd : d = cid
        · subst hd
          simp only [count5] at hle hpos ⊢
          simp [removeByName, countIds_append, countIds, countIds_filterOut_self, hcid]
          omega
        · have hdne : d ≠ cid := hd
          have hcd : ¬ e.controlId = d := fun hx => hdne (hx ▸ hcid)
          simp [removeByName, count5, countIds_append, countIds,
            countIds_filterOut_ne _ _ _ hdne, hcd]

theorem count5_rejectPreserved {res : Results} {cid reason now : String}
    {res1 : Results} {pct : ℚ}
    (hInv : ∀ d, count5 res.coverage d ≤ 1)
    (h : rejectControlEvidence res cid reason now = .ok (res1, pct)) :
    ∀ d, count5 res1.coverage d = count5 res.coverage d := by
  intro d
  unfold rejectControlEvidence at h
  by_cases hr : reason.trim = ""
  · rw [if_pos hr] at h; exact absurd h (by simp)
  rw [if_neg hr] at h
  cases h2 : findControl2 res.coverage cid with
  | none => rw [h2] at h; exact absurd h (by simp)
  | some pr =>
    obtain ⟨e, src⟩ := pr
    rw [h2] at h
    simp only [Except.ok.injEq] at h
    have h1 := congrArg Prod.fst h
    simp only at h1
    rw [← h1, count5_recomputeStats]
    rcases findControl2_cases h2 with ⟨hs, hf⟩ | ⟨hs, hf⟩ <;>
      subst hs <;>
      · have hcid : e.controlId = cid := find_controlId_eq hf
        have hpos := countIds_pos_of_find hf
        have hle := hInv cid
        by_cases hd : d = cid
        · subst hd
          simp only [count5] at hle hpos ⊢
          simp [removeByName, countIds_append, countIds, countIds_filterOut_self, hcid]
          omega
        · have hdne : d ≠ cid := hd
          have hcd : ¬ e.controlId = d := fun hx => hdne (hx ▸ hcid)
          simp [removeByName, count5, countIds_append, countIds,
            countIds_filterOut_ne _ _ _ hdne, hcd]

theorem count5_restorePreserved {res : Results} {cid : String}
    {res1 : Results} {tgt : String} {pct : ℚ}
    (hInv : ∀ d, count5 res.coverage d ≤ 1)
    (hnames : RestorableNames res.coverage)
    (h : restoreControl res cid = .ok (res1, tgt, pct)) :
    ∀ d, count5 res1.coverage d = count5 res.coverage d := by
  intro d
  unfold restoreControl at h
  cases h2 : findControlRestore res.coverage cid with
  | none => rw [h2] at h; exact absurd h (by simp)
  | some pr =>
    obtain ⟨e, src⟩ := pr
    rw [h2] at h
    simp only [Except.ok.injEq] at h
    have h1 := congrArg Prod.fst h
    simp only at h1
    rw [← h1, count5_recomputeStats]
    rcases findControlRestore_cases h2 with ⟨hs, hf⟩ | ⟨hs, hf⟩ <;> subst hs
    · have hcid : e.controlId = cid := find_controlId_eq hf
      have hpos := countIds_pos_of_find hf
      have hle := hInv cid
      have hmem : e ∈ res.coverage.notApplicable := List.mem_of_find?_eq_some hf
      have htgt : ValidListName
          (if ("not_applicable" : String) = "not_applicable" then
            if e.autoDetermined.getD false then "no_coverage"
            else e.originalStatus.getD "no_coverage"
          else e.rejectedFrom.getD "partial_coverage") := by
        simp only [if_pos rfl]
        by_cases ha : e.autoDetermined.getD false
        · simp [ha, ValidListName]
        · simp [ha]; exact hnames.1 e hmem
      rw [count5_appendByName _ _ _ htgt]
      by_cases hd : d = cid
      · subst hd
        simp only [count5] at hle hpos ⊢
        simp [removeByName, countIds_filterOut_self, hcid]
        omega
      · have hdne : d ≠ cid := hd
        have hcd : ¬ e.controlId = d := fun hx => hdne (hx ▸ hcid)
        simp [removeByName, count5, countIds_filterOut_ne _ _ _ hdne, hcd]
    · have hcid : e.controlId = cid := find_controlId_eq hf
      have hpos := countIds_pos_of_find hf
      have hle := hInv cid
      have hmem : e ∈ res.coverage.rejectedEvidence := List.mem_of_find?_eq_some hf
      have htgt : ValidListName
          (if ("rejected_evidence" : String) = "not_applicable" then
            if e.autoDetermined.getD false then "no_coverage"
            else e.originalStatus.getD "no_coverage"
          else e.rejectedFrom.getD "partial_coverage") := by
        rw [if_neg (by decide)]
        exact hnames.2 e hmem
      rw [count5_appendByName _ _ _ htgt]
      by_cases hd : d = cid
      · subst hd
        simp only [count5] at hle hpos ⊢
        simp [removeByName, countIds_filterOut_self, hcid]
        omega
      · have hdne : d ≠ cid := hd
        have hcd : ¬ e.controlId = d := fun hx => hdne (hx ▸ hcid)
        simp [removeByName, count5, countIds_filterOut_ne _ _ _ hdne, hcd]

theorem countIds_classify (controls : List Control) (emap : EvidenceMap) (d : String) :
    countIds (classifyControls controls emap).1 d +
      countIds (classifyControls controls emap).2.1 d +
      countIds (classifyControls controls emap).2.2.1 d = countCtrl controls d := by
  induction controls with
  | nil => simp [classifyControls, countIds, countCtrl]
  | cons c rest ih =>
    simp only [classifyControls]
    cases hl : lookupEv emap c.id with
    | some items =>
      by_cases hfull : (foldEvidence items).hasFull <;>
        simp [hl, hfull, countIds, countCtrl, ← ih] <;> omega
    | none => simp [hl, countIds, countCtrl, ← ih]; omega

theorem lengths_classify (controls : List Control) (emap : EvidenceMap) :
    (classifyControls controls emap).1.length +
      (classifyControls controls emap).2.1.length +
      (classifyControls controls emap).2.2.1.length = controls.length := by
  induction controls with
  | nil => simp [classifyControls]
  | cons c rest ih =>
    simp only [classifyControls]
    cases hl : lookupEv emap c.id with
    | some items =>
      by_cases hfull : (foldEvidence items).hasFull <;>
        simp [hl, hfull, ← ih] <;> omega
    | none => simp [hl, ← ih]; omega

theorem countCtrl_pos_of_mem {controls : List Control} {d : String}
    (h : d ∈ controls.map Control.id) : 1 ≤ countCtrl controls d := by
  induction controls with
  | nil => simp at h
  | cons c rest ih =>
    simp only [List.map_cons, List.mem_cons] at h
    rcases h with hc | hc
    · subst hc
      simp [countCtrl]
    · have := ih hc
      simp [countCtrl]
      omega

theorem countCtrl_split (controls : List Control) (r : ClassifierResult) (d : String) :
    countCtrl (splitApplicability controls r).1 d +
      countIds (splitApplicability controls r).2 d = countCtrl controls d := by
  induction controls with
  | nil => simp [splitApplicability, countCtrl, countIds]
  | cons c rest ih =>
    simp only [splitApplicability]
    by_cases hna : r.notApplicable.any (fun i => i.controlId == c.id) <;>
      simp [hna, countCtrl, countIds, ← ih] <;> omega

/-- `count5` of the coverage assembled by `run_assessment`, phase 5:
the calculated three lists plus the applicability phase's
`not_applicable` list. -/
theorem count5_assembleResults (requiredControls : List Control)
    (applicability : ApplicabilityOutcome) (emap : EvidenceMap) (d : String) :
    count5 (assembleResults requiredControls applicability emap).coverage d =
      countCtrl applicability.applicableControls d +
        countIds applicability.notApplicableControls d := by
  have h := countIds_classify applicability.applicableControls emap d
  simp [assembleResults, calculateCoverage, count5, countIds]
  omega

theorem applicAll_applicable : applicAll.applicableControls = [ctrlA, ctrlB, ctrlC] := by
  with_unfolding_all rfl

theorem applicAll_na : applicAll.notApplicableControls = [] := by
  with_unfolding_all rfl

theorem countCtrl_ABC (d : String) : countCtrl [ctrlA, ctrlB, ctrlC] d ≤ 1 := by
  by_cases h1 : ("A" : String) = d <;> by_cases h2 : ("B" : String) = d <;>
    by_cases h3 : ("C" : String) = d
  · exact absurd (h1.trans h2.symm) (by decide)
  · exact absurd (h1.trans h2.symm) (by decide)
  · exact absurd (h1.trans h3.symm) (by decide)
  · simp [countCtrl, ctrlA, ctrlB, ctrlC, h1, h2, h3]
  · exact absurd (h2.trans h3.symm) (by decide)
  · simp [countCtrl, ctrlA, ctrlB, ctrlC, h1, h2, h3]
  · simp [countCtrl, ctrlA, ctrlB, ctrlC, h1, h2, h3]
  · simp [countCtrl, ctrlA, ctrlB, ctrlC, h1, h2, h3]

theorem partitionInv_resA : PartitionInv ["A", "B", "C"] resA.coverage := by
  constructor
  · intro d
    have h := count5_assembleResults [ctrlA, ctrlB, ctrlC] applicAll emapA d
    rw [applicAll_applicable, applicAll_na] at h
    have : count5 resA.coverage d = countCtrl [ctrlA, ctrlB, ctrlC] d := by
      rw [show resA = assembleResults [ctrlA, ctrlB, ctrlC] applicAll emapA from rfl, h]
      simp [countIds]
    rw [this]
    exact countCtrl_ABC d
  · intro d hd
    simp only [List.mem_cons, List.not_mem_nil, or_false] at hd
    rcases hd with h | h | h <;> subst h
    · with_unfolding_all decide
    · with_unfolding_all decide
    · with_unfolding_all decide

theorem markB_eq :
    markControlNotApplicable resA "C" "no wireless capability" "t1" = .ok (resB, 75) := by
  with_unfolding_all rfl

/-- Claim C1, amended: the partition invariant I1 is established by the
initial applicability + coverage computation and preserved by each of the
three override operations (mark-not-applicable, reject-evidence, restore —
the last on states whose stored restoration targets name real lists).  The
reassessment part of the original claim is refuted by the counterexample:
`reassess_with_new_document` reclassifies the applicability phase's
applicable set without excluding entries currently NOT_APPLICABLE. -/
theorem C1_partition_after_overrides :
    (∀ (required : List Control) (resp : Option ClassifierResult) (emap : EvidenceMap),
      (∀ d, countCtrl required d ≤ 1) →
      PartitionInv (required.map Control.id)
        (assembleResults required (assessControlApplicability required resp) emap).coverage) ∧
    (∀ (ids : List String) (res res1 : Results) (cid reason now : String) (pct : ℚ),
      PartitionInv ids res.coverage →
      markControlNotApplicable res cid reason now = .ok (res1, pct) →
      PartitionInv ids res1.coverage) ∧
    (∀ (ids : List String) (res res1 : Results) (cid reason now : String) (pct : ℚ),
      PartitionInv ids res.coverage →
      rejectControlEvidence res cid reason now = .ok (res1, pct) →
      PartitionInv ids res1.coverage) ∧
    (∀ (ids : List String) (res res1 : Results) (cid tgt : String) (pct : ℚ),
      PartitionInv ids res.coverage →
      RestorableNames res.coverage →
      restoreControl res cid = .ok (res1, tgt, pct) →
      PartitionInv ids res1.coverage) := by
  refine ⟨?_, ?_, ?_, ?_⟩
  · intro required resp emap hn
    constructor
    · intro d
      rw [count5_assembleResults]
      cases resp with
      | none => simpa [assessControlApplicability, countIds] using hn d
      | some r =>
        have h1 := countCtrl_split required r d
        have h2 := hn d
        simp only [assessControlApplicability]
        omega
    · intro d hd
      have hpos := countCtrl_pos_of_mem hd
      rw [count5_assembleResults]
      cases resp with
      | none =>
        have := hn d
        simp only [assessControlApplicability, countIds]
        omega
      | some r =>
        have h1 := countCtrl_split required r d
        have := hn d
        simp only [assessControlApplicability]
        omega
  · intro ids res res1 cid reason now pct hInv h
    have he := count5_markPreserved hInv.1 h
    exact ⟨fun d => (he d).symm ▸ hInv.1 d, fun d hd => (he d).symm ▸ hInv.2 d hd⟩
  · intro ids res res1 cid reason now pct hInv h
    have he := count5_rejectPreserved hInv.1 h
    exact ⟨fun d => (he d).symm ▸ hInv.1 d, fun d hd => (he d).symm ▸ hInv.2 d hd⟩
  · intro ids res res1 cid tgt pct hInv hnames h
    have he := count5_restorePreserved hInv.1 hnames h
    exact ⟨fun d => (he d).symm ▸ hInv.1 d, fun d hd => (he d).symm ▸ hInv.2 d hd⟩

/-- Claim C1, counterexample: mark C not-applicable (Scenario B), then run
`reassess_with_new_document` with a new document addressing no control.
C is reclassified into `no_coverage` (it is still in the applicability
phase's applicable set) and simultaneously re-overlaid in
`not_applicable`, so it appears in two of the five lists. -/
theorem C1_counterexample :
    countIds (reassessWithNewDocument [ctrlA, ctrlB, ctrlC] resB docEmpty).coverage.noCoverage
        "C" = 1 ∧
    countIds (reassessWithNewDocument [ctrlA, ctrlB, ctrlC] resB docEmpty).coverage.notApplicable
        "C" = 1 ∧
    count5 (reassessWithNewDocument [ctrlA, ctrlB, ctrlC] resB docEmpty).coverage "C" = 2 := by
  refine ⟨?_, ?_, ?_⟩ <;> with_unfolding_all decide

/-- Claim C1, witness: the amended theorem applied to the Scenario A
assessment and to the Scenario B override. -/
theorem C1_witness :
    PartitionInv ([ctrlA, ctrlB, ctrlC].map Control.id)
      (assembleResults [ctrlA, ctrlB, ctrlC]
        (assessControlApplicability [ctrlA, ctrlB, ctrlC] (some ⟨[], []⟩)) emapA).coverage ∧
    PartitionInv ["A", "B", "C"] resB.coverage := by
  constructor
  · exact C1_partition_after_overrides.1 [ctrlA, ctrlB, ctrlC] (some ⟨[], []⟩) emapA countCtrl_ABC
  · exact C1_partition_after_overrides.2.1 ["A", "B", "C"] resA resB "C"
      "no wireless capability" "t1" 75 partitionInv_resA markB_eq

/-- Claim C4: `_calculate_coverage` on 3 applicable controls where A has one
FULL/tier-1 judgment, B one PARTIAL/tier-5 judgment and C no evidence
classifies A as FULL_COVERAGE, B as PARTIAL_COVERAGE, C as NO_COVERAGE and
yields `coverage_percentage = 50.0` and `quality_score = 41.7`, per the
strength-score table (tier 1 → 100, tier 5 → 50) and the coverage
multipliers (FULL → 1, PARTIAL → 1/2). -/
theorem C4_scenarioA :
    (calculateCoverage [ctrlA, ctrlB, ctrlC] emapA).fullCoverage.map Entry.controlId = ["A"] ∧
    (calculateCoverage [ctrlA, ctrlB, ctrlC] emapA).partialCoverage.map Entry.controlId = ["B"] ∧
    (calculateCoverage [ctrlA, ctrlB, ctrlC] emapA).noCoverage.map Entry.controlId = ["C"] ∧
    (calculateCoverage [ctrlA, ctrlB, ctrlC] emapA).coveragePercentage = 50 ∧
    (calculateCoverage [ctrlA, ctrlB, ctrlC] emapA).qualityScore = 417/10 ∧
    effectiveScore ⟨"doc1", "FULL", .jint 1⟩ = 100 ∧
    effectiveScore ⟨"doc1", "PARTIAL", .jint 5⟩ = 25 := by
  with_unfolding_all decide

/-- Claim C5, counterexample: `restore_control` takes no reason at all —
its request carries no payload — and succeeds on Scenario B without any
human-supplied reason, refuting "each of the three transitions requires a
non-empty human-supplied reason". -/
theorem C5_counterexample :
    restoreControl resB "C" = .ok (resC, "no_coverage", 50) := by
  with_unfolding_all rfl

/-- Claim C5, amended: mark-not-applicable and reject-evidence reject a
missing or blank (whitespace-only) reason synchronously with the
validation error "Reason is required", before any mutation of the
coverage (the error return carries no modified state); restore performs no
reason check. -/
theorem C5_reason_validation :
    (∀ (res : Results) (cid reason now : String), reason.trim = "" →
      markControlNotApplicable res cid reason now =
        .error (.validation "Reason is required")) ∧
    (∀ (res : Results) (cid reason now : String), reason.trim = "" →
      rejectControlEvidence res cid reason now =
        .error (.validation "Reason is required")) := by
  constructor
  · intro res cid reason now h
    unfold markControlNotApplicable
    rw [if_pos h]
  · intro res cid reason now h
    unfold rejectControlEvidence
    rw [if_pos h]

/-- Claim C5, witness: the amended theorem applied to Scenario A with a
whitespace-only reason. -/
theorem C5_witness :
    markControlNotApplicable resA "C" "  " "t9" = .error (.validation "Reason is required") ∧
    rejectControlEvidence resA "A" "  " "t9" = .error (.validation "Reason is required") :=
  ⟨C5_reason_validation.1 resA "C" "  " "t9" (by with_unfolding_all rfl),
   C5_reason_validation.2 resA "A" "  " "t9" (by with_unfolding_all rfl)⟩

/-- Claim C6: on classifier failure or a malformed response,
`_assess_control_applicability` degrades recoverably — every required
control is applicable, the not-applicable set is empty and a note records
the failure; on success every required control not explicitly listed as
not-applicable defaults to applicable. -/
theorem C6_applicability_failopen :
    (∀ required : List Control,
      (assessControlApplicability required none).applicableControls = required ∧
      (assessControlApplicability required none).notApplicableControls = [] ∧
      (assessControlApplicability required none).note =
        some "Applicability assessment failed - all controls marked as applicable") ∧
    (∀ (required : List Control) (r : ClassifierResult) (c : Control),
      c ∈ required →
      (∀ i ∈ r.notApplicable, i.controlId ≠ c.id) →
      c ∈ (assessControlApplicability required (some r)).applicableControls) := by
  constructor
  · intro required
    exact ⟨rfl, rfl, rfl⟩
  · intro required r c hc hno
    have hany : (r.notApplicable.any (fun i => i.controlId == c.id)) = false := by
      rw [List.any_eq_false]
      intro i hi
      simpa using hno i hi
    simp only [assessControlApplicability]
    induction required with
    | nil => simp at hc
    | cons a rest ih =>
      rcases List.mem_cons.mp hc with h | h
      · subst h
        simp [splitApplicability, hany]
      · have hmem := ih h
        simp only [splitApplicability]
        by_cases hb : (r.notApplicable.any (fun i => i.controlId == a.id)) = true
        · simpa [hb] using hmem
        · simp only [Bool.not_eq_true] at hb
          simp [hb]
          exact Or.inr hmem

/-- Claim C6, witness: fail-open on classifier failure for the three
scenario controls, and default-to-applicable for a control not listed in a
successful response's `not_applicable` list. -/
theorem C6_witness :
    (assessControlApplicability [ctrlA, ctrlB, ctrlC] none).applicableControls =
        [ctrlA, ctrlB, ctrlC] ∧
    ctrlA ∈ (assessControlApplicability [ctrlA, ctrlB, ctrlC]
        (some ⟨[], [⟨"PE-1", "cloud hosted"⟩]⟩)).applicableControls :=
  ⟨(C6_applicability_failopen.1 [ctrlA, ctrlB, ctrlC]).1,
   C6_applicability_failopen.2 [ctrlA, ctrlB, ctrlC] ⟨[], [⟨"PE-1", "cloud hosted"⟩]⟩ ctrlA
     (by simp) (by intro i hi; simp at hi; rw [hi]; with_unfolding_all decide)⟩

/-- Claim C10: classification is total over malformed judgments — a numeric
string tier parses to its integer value, an unparsable string becomes
tier 7, any tier outside 1-7 scores 20 (the weakest strength), an unknown
coverage level gets the MENTIONS multiplier 1/4, and the quality report
additionally clamps tiers into [1, 7].  (`strengthScoreFn`, `coverageMult`
and `normalizeTier` embed the `.get`-with-default lookups and the
`try/except` of the source, so every judgment value yields a score rather
than an error.) -/
theorem C10_malformed_total :
    (∀ (s : String) (n : Int), s.toInt? = some n → normalizeTier (.jstr s) = n) ∧
    (∀ s : String, s.toInt? = none → normalizeTier (.jstr s) = 7) ∧
    (∀ t : Int, t < 1 ∨ 7 < t → strengthScoreFn t = 20) ∧
    (∀ c : String, c ≠ "FULL" → c ≠ "PARTIAL" → c ≠ "MENTIONS" → coverageMult c = 1/4) ∧
    (∀ v : JTier, 1 ≤ qualityReportTier v ∧ qualityReportTier v ≤ 7) := by
  refine ⟨?_, ?_, ?_, ?_, ?_⟩
  · intro s n h
    simp [normalizeTier, h]
  · intro s h
    simp [normalizeTier, h]
  · intro t ht
    unfold strengthScoreFn
    split_ifs <;> first | rfl | (exfalso; omega)
  · intro c h1 h2 h3
    simp [coverageMult, h1, h2, h3]
  · intro v
    unfold qualityReportTier
    exact ⟨le_max_left _ _, max_le (by norm_num) (min_le_left _ _)⟩

/-- Claim C10, witness: a numeric string tier, an unparsable string tier, an
out-of-range tier, an unknown coverage level, and the clamp on a huge
tier. -/
theorem C10_witness :
    normalizeTier (.jstr "5") = 5 ∧
    normalizeTier (.jstr "high") = 7 ∧
    strengthScoreFn 42 = 20 ∧
    coverageMult "COMPLETE" = 1/4 ∧
    (1 ≤ qualityReportTier (.jint 42) ∧ qualityReportTier (.jint 42) ≤ 7) :=
  ⟨C10_malformed_total.1 "5" 5 (by with_unfolding_all rfl),
   C10_malformed_total.2.1 "high" (by with_unfolding_all rfl),
   C10_malformed_total.2.2.1 42 (by omega),
   C10_malformed_total.2.2.2.1 "COMPLETE" (by decide) (by decide) (by decide),
   C10_malformed_total.2.2.2.2 (.jint 42)⟩

/-- Claim C7: when a reassessment replaces completed results, the run
history should receive the pre-reassessment snapshot.  In the code,
`get_assessment` returns the stored dict itself and
`reassess_with_new_document` mutates it in place before
`store_results` copies "the previous results" into the history; the
history entry therefore equals the NEW (post-reassessment) results, not
the prior snapshot: starting from Scenario A and reassessing with a
document that gives C full coverage, the single history entry equals the
reassessed results, which differ from the prior results. -/
theorem C7_history_gets_mutated_snapshot :
    (reassessWithDocuments [ctrlA, ctrlB, ctrlC] ⟨some resA, []⟩ [docC]).runHistory =
      [reassessWithNewDocument [ctrlA, ctrlB, ctrlC] resA docC] ∧
    reassessWithNewDocument [ctrlA, ctrlB, ctrlC] resA docC ≠ resA ∧
    (reassessWithNewDocument [ctrlA, ctrlB, ctrlC] resA docC).coverage.coveragePercentage =
      833/10 ∧
    resA.coverage.coveragePercentage = 50 := by
  refine ⟨?_, ?_, ?_, ?_⟩
  · with_unfolding_all rfl
  · with_unfolding_all decide
  · with_unfolding_all rfl
  · with_unfolding_all rfl

theorem removeByName_qualityScore (cov : Coverage) (name cid : String) :
    (removeByName cov name cid).qualityScore = cov.qualityScore := by
  unfold removeByName; split_ifs <;> rfl

theorem removeByName_mv (cov : Coverage) (name cid : String) :
    (removeByName cov name cid).machineVerifiableCount = cov.machineVerifiableCount := by
  unfold removeByName; split_ifs <;> rfl

theorem removeByName_hc (cov : Coverage) (name cid : String) :
    (removeByName cov name cid).humanCuratedCount = cov.humanCuratedCount := by
  unfold removeByName; split_ifs <;> rfl

theorem appendByName_qualityScore (cov : Coverage) (name : String) (e : Entry) :
    (appendByName cov name e).qualityScore = cov.qualityScore := by
  unfold appendByName; split_ifs <;> rfl

theorem appendByName_mv (cov : Coverage) (name : String) (e : Entry) :
    (appendByName cov name e).machineVerifiableCount = cov.machineVerifiableCount := by
  unfold appendByName; split_ifs <;> rfl

theorem appendByName_hc (cov : Coverage) (name : String) (e : Entry) :
    (appendByName cov name e).humanCuratedCount = cov.humanCuratedCount := by
  unfold appendByName; split_ifs <;> rfl

/-- Claim C2, counterexample: after marking the single FULL-covered control
of a one-control assessment not-applicable, the stored `quality_score` and
`machine_verifiable_count` still hold their pre-override values (100 and 1)
while the pure functions of the five lists' current contents defined by the
CoverageCalculator give 0 — the handlers recompute only the coverage
percentage and the per-status counts. -/
theorem C2_counterexample :
    resOneMarked.coverage.qualityScore = 100 ∧
    specQualityScore resOneMarked.coverage resOneMarked.summary.totalControls = 0 ∧
    resOneMarked.coverage.machineVerifiableCount = 1 ∧
    specMachineVerifiableCount resOneMarked.coverage = 0 ∧
    resOneMarked.coverage.fullCoverage = [] ∧
    resOneMarked.coverage.partialCoverage = [] := by
  refine ⟨?_, ?_, ?_, ?_, ?_, ?_⟩ <;> with_unfolding_all decide

/-- Claim C2, amended: after each override operation, `coverage_percentage`
and the five per-status counts are fully re-derived from the lists'
current contents (matching the spec formula with
`effectiveTotal = totalControls − |NOT_APPLICABLE|`), but `quality_score`,
`machine_verifiable_count` and `human_curated_count` are NOT recomputed:
they keep the values stored before the transition. -/
theorem C2_aggregates_partially_recomputed :
    (∀ (res res1 : Results) (cid reason now : String) (pct : ℚ),
      markControlNotApplicable res cid reason now = .ok (res1, pct) →
      res1.coverage.coveragePercentage =
          pyRound1 (specCoveragePct res1.coverage res.summary.totalControls) ∧
        res1.coverage.controlsWithEvidence = res1.coverage.fullCoverage.length ∧
        res1.coverage.controlsPartial = res1.coverage.partialCoverage.length ∧
        res1.coverage.controlsMissing = res1.coverage.noCoverage.length ∧
        res1.coverage.controlsNotApplicable = res1.coverage.notApplicable.length ∧
        res1.coverage.controlsRejectedEvidence = res1.coverage.rejectedEvidence.length ∧
        res1.coverage.qualityScore = res.coverage.qualityScore ∧
        res1.coverage.machineVerifiableCount = res.coverage.machineVerifiableCount ∧
        res1.coverage.humanCuratedCount = res.coverage.humanCuratedCount) ∧
    (∀ (res res1 : Results) (cid reason now : String) (pct : ℚ),
      rejectControlEvidence res cid reason now = .ok (res1, pct) →
      res1.coverage.coveragePercentage =
          pyRound1 (specCoveragePct res1.coverage res.summary.totalControls) ∧
        res1.coverage.qualityScore = res.coverage.qualityScore ∧
        res1.coverage.machineVerifiableCount = res.coverage.machineVerifiableCount ∧
        res1.coverage.humanCuratedCount = res.coverage.humanCuratedCount) ∧
    (∀ (res res1 : Results) (cid tgt : String) (pct : ℚ),
      restoreControl res cid = .ok (res1, tgt, pct) →
      res1.coverage.coveragePercentage =
          pyRound1 (specCoveragePct res1.coverage res.summary.totalControls) ∧
        res1.coverage.qualityScore = res.coverage.qualityScore ∧
        res1.coverage.machineVerifiableCount = res.coverage.machineVerifiableCount ∧
        res1.coverage.humanCuratedCount = res.coverage.humanCuratedCount) := by
  refine ⟨?_, ?_, ?_⟩
  · intro res res1 cid reason now pct h
    unfold markControlNotApplicable at h
    by_cases hr : reason.trim = ""
    · rw [if_pos hr] at h; exact absurd h (by simp)
    rw [if_neg hr] at h
    cases h4 : findControl4 res.coverage cid with
    | none => rw [h4] at h; exact absurd h (by simp)
    | some pr =>
      obtain ⟨e, src⟩ := pr
      rw [h4] at h
      simp only [Except.ok.injEq] at h
      have h1 := congrArg Prod.fst h
      simp only at h1
      rw [← h1]
      refine ⟨rfl, rfl, rfl, rfl, rfl, rfl, ?_, ?_, ?_⟩
      · exact removeByName_qualityScore res.coverage src cid
      · exact removeByName_mv res.coverage src cid
      · exact removeByName_hc res.coverage src cid
  · intro res res1 cid reason now pct h
    unfold rejectControlEvidence at h
    by_cases hr : reason.trim = ""
    · rw [if_pos hr] at h; exact absurd h (by simp)
    rw [if_neg hr] at h
    cases h4 : findControl2 res.coverage cid with
    | none => rw [h4] at h; exact absurd h (by simp)
    | some pr =>
      obtain ⟨e, src⟩ := pr
      rw [h4] at h
      simp only [Except.ok.injEq] at h
      have h1 := congrArg Prod.fst h
      simp only at h1
      rw [← h1]
      refine ⟨rfl, ?_, ?_, ?_⟩
      · exact removeByName_qualityScore res.coverage src cid
      · exact removeByName_mv res.coverage src cid
      · exact removeByName_hc res.coverage src cid
  · intro res res1 cid tgt pct h
    unfold restoreControl at h
    cases h4 : findControlRestore res.coverage cid with
    | none => rw [h4] at h; exact absurd h (by simp)
    | some pr =>
      obtain ⟨e, src⟩ := pr
      rw [h4] at h
      simp only [Except.ok.injEq] at h
      have h1 := congrArg Prod.fst h
      simp only at h1
      rw [← h1]
      refine ⟨rfl, ?_, ?_, ?_⟩
      · exact (appendByName_qualityScore _ _ _).trans (removeByName_qualityScore _ _ _)
      · exact (appendByName_mv _ _ _).trans (removeByName_mv _ _ _)
      · exact (appendByName_hc _ _ _).trans (removeByName_hc _ _ _)

/-- Claim C2, witness: the amended theorem at Scenario B — the quality
score stays at its Scenario A value while the coverage percentage is
re-derived. -/
theorem C2_witness :
    resB.coverage.qualityScore = resA.coverage.qualityScore ∧
    resB.coverage.coveragePercentage =
      pyRound1 (specCoveragePct resB.coverage resA.summary.totalControls) := by
  have h := C2_aggregates_partially_recomputed.1 resA resB "C" "no wireless capability"
    "t1" 75 markB_eq
  exact ⟨h.2.2.2.2.2.2.1, h.1⟩

theorem rejectD_eq :
    rejectControlEvidence resA "A" "stale policy doc" "t2" = .ok (resD, 167/10) := by
  with_unfolding_all rfl

/-- Claim C8, counterexample: A is rejected from FULL_COVERAGE
(`rejected_from = "full_coverage"`), then marked not-applicable (which pops
the rejection metadata), then restored — landing back in REJECTED_EVIDENCE
with NO `rejected_from`.  A later restore of that entry therefore defaults
to PARTIAL_COVERAGE instead of the FULL_COVERAGE it was rejected from: the
prior state is not reconstructible, refuting I3 for exactly the sequence
the claim names. -/
theorem C8_counterexample :
    resD.coverage.rejectedEvidence.map Entry.rejectedFrom = [some "full_coverage"] ∧
    resF.coverage.rejectedEvidence.map Entry.controlId = ["A"] ∧
    resF.coverage.rejectedEvidence.map Entry.rejectedFrom = [none] ∧
    (restoreControl resF "A").toOption.map (fun x => x.2.1) = some "partial_coverage" := by
  refine ⟨?_, ?_, ?_, ?_⟩ <;> with_unfolding_all decide

/-- Claim C8, amended: the entry an override appends carries the audit
metadata — mark-not-applicable records `original_status` and
`auto_determined = false`, reject-evidence records `rejected_from`, and the
applicability phase's auto-determined entries carry
`auto_determined = true` — but the metadata is NOT preserved across every
sequence of overrides: an entry restored back into REJECTED_EVIDENCE
(after being marked not-applicable while rejected) has lost its
`rejected_from`, as the counterexample shows. -/
theorem C8_override_metadata :
    (∀ (res res1 : Results) (cid reason now : String) (pct : ℚ),
      markControlNotApplicable res cid reason now = .ok (res1, pct) →
      ∃ e, res1.coverage.notApplicable.getLast? = some e ∧
        e.originalStatus.isSome = true ∧ e.autoDetermined = some false) ∧
    (∀ (res res1 : Results) (cid reason now : String) (pct : ℚ),
      rejectControlEvidence res cid reason now = .ok (res1, pct) →
      ∃ e, res1.coverage.rejectedEvidence.getLast? = some e ∧
        e.rejectedFrom.isSome = true) ∧
    (∀ (required : List Control) (r : ClassifierResult),
      ∀ e ∈ (assessControlApplicability required (some r)).notApplicableControls,
        e.autoDetermined = some true) := by
  refine ⟨?_, ?_, ?_⟩
  · intro res res1 cid reason now pct h
    unfold markControlNotApplicable at h
    by_cases hr : reason.trim = ""
    · rw [if_pos hr] at h; exact absurd h (by simp)
    rw [if_neg hr] at h
    cases h4 : findControl4 res.coverage cid with
    | none => rw [h4] at h; exact absurd h (by simp)
    | some pr =>
      obtain ⟨e, src⟩ := pr
      rw [h4] at h
      simp only [Except.ok.injEq] at h
      have h1 := congrArg Prod.fst h
      simp only at h1
      rw [← h1]
      exact ⟨_, List.getLast?_concat _, rfl, rfl⟩
  · intro res res1 cid reason now pct h
    unfold rejectControlEvidence at h
    by_cases hr : reason.trim = ""
    · rw [if_pos hr] at h; exact absurd h (by simp)
    rw [if_neg hr] at h
    cases h4 : findControl2 res.coverage cid with
    | none => rw [h4] at h; exact absurd h (by simp)
    | some pr =>
      obtain ⟨e, src⟩ := pr
      rw [h4] at h
      simp only [Except.ok.injEq] at h
      have h1 := congrArg Prod.fst h
      simp only at h1
      rw [← h1]
      exact ⟨_, List.getLast?_concat _, rfl⟩
  · intro required r
    induction required with
    | nil => intro e he; simp [assessControlApplicability, splitApplicability] at he
    | cons a rest ih =>
      intro e he
      simp only [assessControlApplicability, splitApplicability] at he ih
      by_cases hb : (r.notApplicable.any (fun i => i.controlId == a.id)) = true
      · rw [if_pos hb] at he
        rcases List.mem_cons.mp he with h | h
        · rw [h]
        · exact ih e h
      · rw [if_neg hb] at he
        exact ih e he

/-- Claim C8, witness: the amended theorem applied at Scenario B (mark),
Scenario D (reject), and a classifier response listing A as
not-applicable. -/
theorem C8_witness :
    (∃ e, resB.coverage.notApplicable.getLast? = some e ∧
      e.originalStatus.isSome = true ∧ e.autoDetermined = some false) ∧
    (∃ e, resD.coverage.rejectedEvidence.getLast? = some e ∧
      e.rejectedFrom.isSome = true) ∧
    (∀ e ∈ (assessControlApplicability [ctrlA]
        (some ⟨[], [⟨"A", "no ac needed"⟩]⟩)).notApplicableControls,
      e.autoDetermined = some true) :=
  ⟨C8_override_metadata.1 resA resB "C" "no wireless capability" "t1" 75 markB_eq,
   C8_override_metadata.2.1 resA resD "A" "stale policy doc" "t2" (167/10) rejectD_eq,
   C8_override_metadata.2.2 [ctrlA] ⟨[], [⟨"A", "no ac needed"⟩]⟩⟩

theorem restore_from_na (res1 : Results) (cid src : String) (e2 : Entry)
    (hfind : List.find? (fun x => x.controlId == cid) res1.coverage.notApplicable = some e2)
    (hauto : e2.autoDetermined = some false)
    (horig : e2.originalStatus = some src) :
    restoreControl res1 cid = .ok
      ((restoreOutcome res1 cid src e2).1, src, (restoreOutcome res1 cid src e2).2) := by
  have h2 : findControlRestore res1.coverage cid = some (e2, "not_applicable") := by
    unfold findControlRestore
    rw [hfind]
  unfold restoreControl
  rw [h2]
  simp [removeByName, hauto, horig, stripMeta, restoreOutcome, removeFromNA]

theorem mark_eq_of_find (res : Results) (cid reason now src : String) (e : Entry)
    (hr : reason.trim ≠ "")
    (h4 : findControl4 res.coverage cid = some (e, src)) :
    markControlNotApplicable res cid reason now = .ok (markOutcome res cid reason now src e) := by
  unfold markControlNotApplicable
  rw [if_neg hr, h4]
  with_unfolding_all rfl

/-- Claim C3: for an entry currently in any of FULL_COVERAGE,
PARTIAL_COVERAGE, NO_COVERAGE or REJECTED_EVIDENCE and a non-blank reason,
mark-not-applicable followed by restore succeeds, targets the stored
`original_status` (= the source list), and returns the entry to that list
with its data (evidence content) intact and all override metadata
stripped, leaving every other list as it was; and concretely Scenario C
(restore C after Scenario B) reproduces Scenario A exactly with
`coverage_percentage = 50.0`. -/
theorem C3_mark_restore_roundtrip :
    (∀ (res : Results) (cid reason now : String) (e : Entry) (src : String),
      (∀ d, count5 res.coverage d ≤ 1) →
      reason.trim ≠ "" →
      findControl4 res.coverage cid = some (e, src) →
      ∃ res1 pct1 res2 pct2,
        markControlNotApplicable res cid reason now = .ok (res1, pct1) ∧
        restoreControl res1 cid = .ok (res2, src, pct2) ∧
        res2.coverage.fullCoverage =
          (if src = "full_coverage" then
            filterOut cid res.coverage.fullCoverage ++ [stripMeta e]
          else res.coverage.fullCoverage) ∧
        res2.coverage.partialCoverage =
          (if src = "partial_coverage" then
            filterOut cid res.coverage.partialCoverage ++ [stripMeta e]
          else res.coverage.partialCoverage) ∧
        res2.coverage.noCoverage =
          (if src = "no_coverage" then
            filterOut cid res.coverage.noCoverage ++ [stripMeta e]
          else res.coverage.noCoverage) ∧
        res2.coverage.rejectedEvidence =
          (if src = "rejected_evidence" then
            filterOut cid res.coverage.rejectedEvidence ++ [stripMeta e]
          else res.coverage.rejectedEvidence) ∧
        res2.coverage.notApplicable = res.coverage.notApplicable ∧
        (stripMeta e).data = e.data) ∧
    restoreControl resB "C" = .ok (resC, "no_coverage", 50) ∧
    resC = resA ∧
    resA.coverage.coveragePercentage = 50 := by
  refine ⟨?_, ?_, ?_, ?_⟩
  · intro res cid reason now e src hInv hr h4
    have hm := mark_eq_of_find res cid reason now src e hr h4
    rcases findControl4_cases h4 with h | h | h | h <;>
    · obtain ⟨hs, hf⟩ := h
      have hcid : e.controlId = cid := find_controlId_eq hf
      have hpos := countIds_pos_of_find hf
      have hNA0 : countIds res.coverage.notApplicable cid = 0 := by
        have h1 := hInv cid
        simp only [count5] at h1
        omega
      have hrmNA : (removeByName res.coverage src cid).notApplicable =
          res.coverage.notApplicable := by
        rw [hs]; simp [removeByName]
      have hcid2 : (markedEntry e reason now src).controlId = cid := hcid
      have hNAf : filterOut cid (res.coverage.notApplicable ++ [markedEntry e reason now src]) =
          res.coverage.notApplicable := by
        have h1 : filterOut cid (res.coverage.notApplicable ++ [markedEntry e reason now src]) =
            filterOut cid res.coverage.notApplicable ++
              filterOut cid [markedEntry e reason now src] := List.filter_append _ _
        have h2 : filterOut cid [markedEntry e reason now src] = [] := by
          simp [filterOut, List.filter, hcid2]
        rw [h1, h2, filterOut_of_count0 hNA0, List.append_nil]
      have hproj : (markOutcome res cid reason now src e).1.coverage.notApplicable =
          (removeByName res.coverage src cid).notApplicable ++
            [markedEntry e reason now src] := rfl
      have hfind2 : List.find? (fun x => x.controlId == cid)
          (markOutcome res cid reason now src e).1.coverage.notApplicable =
          some (markedEntry e reason now src) := by
        rw [hproj, hrmNA]
        exact find_append_last hNA0 hcid2
      have hrest := restore_from_na (markOutcome res cid reason now src e).1 cid src
        (markedEntry e reason now src) hfind2 rfl rfl
      refine ⟨_, _, _, _, hm, hrest, ?_, ?_, ?_, ?_, ?_, rfl⟩
      · rw [hs]; with_unfolding_all rfl
      · rw [hs]; with_unfolding_all rfl
      · rw [hs]; with_unfolding_all rfl
      · rw [hs]; with_unfolding_all rfl
      · rw [hs]
        rw [hs] at hNAf
        exact Eq.trans (by with_unfolding_all rfl) hNAf
  · with_unfolding_all rfl
  · with_unfolding_all rfl
  · with_unfolding_all rfl

/-- Claim C3, witness: the round-trip theorem applied to Scenario A's
control C, found in `no_coverage`. -/
theorem C3_witness :
    ∃ res1 pct1 res2 pct2,
      markControlNotApplicable resA "C" "no wireless capability" "t1" = .ok (res1, pct1) ∧
      restoreControl res1 "C" = .ok (res2, "no_coverage", pct2) ∧
      res2.coverage.fullCoverage =
        (if ("no_coverage" : String) = "full_coverage" then
          filterOut "C" resA.coverage.fullCoverage ++ [stripMeta entryC]
        else resA.coverage.fullCoverage) ∧
      res2.coverage.partialCoverage =
        (if ("no_coverage" : String) = "partial_coverage" then
          filterOut "C" resA.coverage.partialCoverage ++ [stripMeta entryC]
        else resA.coverage.partialCoverage) ∧
      res2.coverage.noCoverage =
        (if ("no_coverage" : String) = "no_coverage" then
          filterOut "C" resA.coverage.noCoverage ++ [stripMeta entryC]
        else resA.coverage.noCoverage) ∧
      res2.coverage.rejectedEvidence =
        (if ("no_coverage" : String) = "rejected_evidence" then
          filterOut "C" resA.coverage.rejectedEvidence ++ [stripMeta entryC]
        else resA.coverage.rejectedEvidence) ∧
      res2.coverage.notApplicable = resA.coverage.notApplicable ∧
      (stripMeta entryC).data = entryC.data :=
  C3_mark_restore_roundtrip.1 resA "C" "no wireless capability" "t1" entryC "no_coverage"
    partitionInv_resA.1 (by with_unfolding_all decide) (by with_unfolding_all rfl)

theorem strengthScoreFn_bounds (t : Int) :
    0 ≤ strengthScoreFn t ∧ strengthScoreFn t ≤ 100 := by
  unfold strengthScoreFn
  split_ifs <;> norm_num

theorem coverageMult_bounds (c : String) : 0 ≤ coverageMult c ∧ coverageMult c ≤ 1 := by
  unfold coverageMult
  split_ifs <;> norm_num

theorem effectiveScore_bounds (ev : EvidenceItem) :
    0 ≤ effectiveScore ev ∧ effectiveScore ev ≤ 100 := by
  obtain ⟨h1, h2⟩ := strengthScoreFn_bounds (normalizeTier ev.tier)
  obtain ⟨h3, h4⟩ := coverageMult_bounds ev.coverage
  unfold effectiveScore
  constructor
  · exact mul_nonneg h1 h3
  · calc strengthScoreFn (normalizeTier ev.tier) * coverageMult ev.coverage
        ≤ 100 * 1 := mul_le_mul h2 h4 h3 (by norm_num)
      _ = 100 := by norm_num

theorem stepEvidence_bestScore (acc : BestAcc) (ev : EvidenceItem) :
    (stepEvidence acc ev).bestScore =
      if acc.bestScore < effectiveScore ev then effectiveScore ev else acc.bestScore := by
  unfold stepEvidence
  by_cases h1 : acc.bestScore < effectiveScore ev <;>
    by_cases h2 : ev.coverage = "FULL" <;> simp [h1, h2]

theorem foldl_bestScore_bounds (items : List EvidenceItem) (acc : BestAcc)
    (h0 : 0 ≤ acc.bestScore) (h1 : acc.bestScore ≤ 100) :
    0 ≤ (items.foldl stepEvidence acc).bestScore ∧
      (items.foldl stepEvidence acc).bestScore ≤ 100 := by
  induction items generalizing acc with
  | nil => exact ⟨h0, h1⟩
  | cons ev rest ih =>
    rw [List.foldl_cons]
    apply ih
    · rw [stepEvidence_bestScore]
      split_ifs with h
      · exact (effectiveScore_bounds ev).1
      · exact h0
    · rw [stepEvidence_bestScore]
      split_ifs with h
      · exact (effectiveScore_bounds ev).2
      · exact h1

theorem foldEvidence_bestScore_bounds (items : List EvidenceItem) :
    0 ≤ (foldEvidence items).bestScore ∧ (foldEvidence items).bestScore ≤ 100 :=
  foldl_bestScore_bounds items ⟨0, 7, false⟩ le_rfl (by norm_num)

theorem tw_bounds (controls : List Control) (emap : EvidenceMap) :
    0 ≤ (classifyControls controls emap).2.2.2 ∧
      (classifyControls controls emap).2.2.2 ≤ (controls.length : ℚ) * 100 := by
  induction controls with
  | nil => simp [classifyControls]
  | cons c rest ih =>
    obtain ⟨ih0, ih1⟩ := ih
    simp only [classifyControls]
    cases hl : lookupEv emap c.id with
    | some items =>
      obtain ⟨hb0, hb1⟩ := foldEvidence_bestScore_bounds items
      by_cases hfull : (foldEvidence items).hasFull <;>
        · simp [hl, hfull, List.length_cons]
          constructor
          · linarith
          · push_cast
            linarith
    | none =>
      simp only [hl, List.length_cons]
      constructor
      · exact ih0
      · push_cast
        linarith

theorem int_div10_bounds (n : ℤ) (h0 : 0 ≤ n) (h1 : n ≤ 1000) :
    0 ≤ (n : ℚ) / 10 ∧ (n : ℚ) / 10 ≤ 100 := by
  constructor
  · positivity
  · rw [div_le_iff₀ (by norm_num : (0:ℚ) < 10)]
    have : (n : ℚ) ≤ 1000 := by exact_mod_cast h1
    linarith

theorem pyRound1_eq (q : ℚ) :
    pyRound1 q =
      ((if 10 * q - ((⌊10 * q⌋ : ℤ) : ℚ) < 1/2 then ⌊10 * q⌋
        else if 1/2 < 10 * q - ((⌊10 * q⌋ : ℤ) : ℚ) then ⌊10 * q⌋ + 1
        else if ⌊10 * q⌋ % 2 = 0 then ⌊10 * q⌋ else ⌊10 * q⌋ + 1 : ℤ) : ℚ) / 10 := rfl

theorem pyRound1_bounds {q : ℚ} (h0 : 0 ≤ q) (h1 : q ≤ 100) :
    0 ≤ pyRound1 q ∧ pyRound1 q ≤ 100 := by
  rw [pyRound1_eq]
  have hs0 : (0:ℚ) ≤ 10 * q := by linarith
  have hs1 : 10 * q ≤ 1000 := by linarith
  have hf0 : (0:ℤ) ≤ ⌊10 * q⌋ := Int.le_floor.mpr (by exact_mod_cast hs0)
  have hfle : ((⌊10 * q⌋ : ℤ) : ℚ) ≤ 10 * q := Int.floor_le _
  have hfu : ⌊10 * q⌋ ≤ 1000 := by
    have := Int.floor_le_floor (α := ℚ) hs1
    simpa using this
  split_ifs with hlt hgt heven
  · exact int_div10_bounds _ hf0 hfu
  · have hlt2 : ((⌊10 * q⌋ : ℤ) : ℚ) < 10 * q - 1/2 := by linarith
    have : ((⌊10 * q⌋ : ℤ) : ℚ) < 1000 - 1/2 := by linarith
    have hq : ⌊10 * q⌋ < 1000 := by
      have h2 : ((⌊10 * q⌋ : ℤ) : ℚ) < 1000 := by linarith
      exact_mod_cast h2
    exact int_div10_bounds _ (by omega) (by omega)
  · exact int_div10_bounds _ hf0 hfu
  · have he : 10 * q - ((⌊10 * q⌋ : ℤ) : ℚ) = 1/2 := le_antisymm (not_lt.mp hgt) (not_lt.mp hlt)
    have : ((⌊10 * q⌋ : ℤ) : ℚ) = 10 * q - 1/2 := by linarith
    have hq : ⌊10 * q⌋ < 1000 := by
      have h2 : ((⌊10 * q⌋ : ℤ) : ℚ) < 1000 := by rw [this]; linarith
      exact_mod_cast h2
    exact int_div10_bounds _ (by omega) (by omega)

theorem countIds_le_length (l : List Entry) (cid : String) : countIds l cid ≤ l.length := by
  induction l with
  | nil => simp [countIds]
  | cons e t ih =>
    by_cases h : e.controlId = cid <;> simp [countIds, h] <;> omega

theorem length_filterOut (l : List Entry) (cid : String) :
    (filterOut cid l).length = l.length - countIds l cid := by
  induction l with
  | nil => rfl
  | cons e t ih =>
    have hcle := countIds_le_length t cid
    by_cases h : e.controlId = cid
    · have hb : (e.controlId != cid) = false := by simp [h]
      simp only [filterOut, List.filter_cons, hb, if_false, Bool.false_eq_true, ite_false]
      simp only [filterOut] at ih
      simp [countIds, h, ih]
      omega
    · have hb : (e.controlId != cid) = true := by simp [h]
      simp only [filterOut, List.filter_cons, hb, if_true]
      simp only [filterOut] at ih
      simp [countIds, h, ih, List.length_cons]
      omega

theorem sizeSum_appendByName_le (cov : Coverage) (name : String) (e : Entry) :
    sizeSum (appendByName cov name e) ≤ sizeSum cov + 1 := by
  unfold appendByName
  split_ifs <;> simp [sizeSum] <;> omega

theorem recomputeStats_snd (r : Results) :
    (recomputeStats r).2 = pyRound1
      (if 0 < (r.summary.totalControls : Int) - (r.coverage.notApplicable.length : Int) then
        ((r.coverage.fullCoverage.length : ℚ) + (r.coverage.partialCoverage.length : ℚ) * (1/2)) /
          (((r.summary.totalControls : Int) - (r.coverage.notApplicable.length : Int) : Int) : ℚ) *
          100
      else 0) := rfl

theorem recompute_pct_bounds (r : Results)
    (hsz : sizeSum r.coverage ≤ r.summary.totalControls) :
    0 ≤ (recomputeStats r).2 ∧ (recomputeStats r).2 ≤ 100 := by
  rw [recomputeStats_snd]
  have key : r.coverage.fullCoverage.length + r.coverage.partialCoverage.length +
      r.coverage.notApplicable.length ≤ r.summary.totalControls := by
    unfold sizeSum at hsz
    omega
  refine pyRound1_bounds ?_ ?_
  · split_ifs with hpos
    · have he : (0:ℚ) <
          (((r.summary.totalControls : Int) - (r.coverage.notApplicable.length : Int) : Int) : ℚ) := by
        exact_mod_cast hpos
      positivity
    · exact le_refl 0
  · split_ifs with hpos
    · have he : (0:ℚ) <
          (((r.summary.totalControls : Int) - (r.coverage.notApplicable.length : Int) : Int) : ℚ) := by
        exact_mod_cast hpos
      have hfp : (r.coverage.fullCoverage.length : ℚ) +
          (r.coverage.partialCoverage.length : ℚ) ≤
          (((r.summary.totalControls : Int) - (r.coverage.notApplicable.length : Int) : Int) : ℚ) := by
        push_cast
        have : (r.coverage.fullCoverage.length : ℚ) + r.coverage.partialCoverage.length +
            r.coverage.notApplicable.length ≤ r.summary.totalControls := by exact_mod_cast key
        linarith
      rw [div_mul_eq_mul_div, div_le_iff₀ he]
      nlinarith [he]
    · norm_num

theorem calculateCoverage_pct (controls : List Control) (emap : EvidenceMap) :
    (calculateCoverage controls emap).coveragePercentage = pyRound1
      (if 0 < controls.length then
        (((classifyControls controls emap).1.length : ℚ) +
          ((classifyControls controls emap).2.1.length : ℚ) * (1/2)) /
          (controls.length : ℚ) * 100
      else 0) := rfl

theorem calculateCoverage_quality (controls : List Control) (emap : EvidenceMap) :
    (calculateCoverage controls emap).qualityScore = pyRound1
      (if 0 < (controls.length : ℚ) * 100 then
        (classifyControls controls emap).2.2.2 / ((controls.length : ℚ) * 100) * 100
      else 0) := rfl

theorem pyRound1_zero : pyRound1 0 = 0 := by with_unfolding_all rfl

theorem calculateCoverage_bounds (controls : List Control) (emap : EvidenceMap) :
    (0 ≤ (calculateCoverage controls emap).coveragePercentage ∧
      (calculateCoverage controls emap).coveragePercentage ≤ 100) ∧
    (0 ≤ (calculateCoverage controls emap).qualityScore ∧
      (calculateCoverage controls emap).qualityScore ≤ 100) := by
  constructor
  · rw [calculateCoverage_pct]
    apply pyRound1_bounds
    · split_ifs with hpos
      · have he : (0:ℚ) < (controls.length : ℚ) := by exact_mod_cast hpos
        positivity
      · exact le_refl 0
    · split_ifs with hpos
      · have he : (0:ℚ) < (controls.length : ℚ) := by exact_mod_cast hpos
        have hlen := lengths_classify controls emap
        have hfp : ((classifyControls controls emap).1.length : ℚ) +
            ((classifyControls controls emap).2.1.length : ℚ) ≤ (controls.length : ℚ) := by
          exact_mod_cast Nat.le_trans (by omega) (Nat.le_of_eq hlen)
        rw [div_mul_eq_mul_div, div_le_iff₀ he]
        nlinarith [he]
      · norm_num
  · rw [calculateCoverage_quality]
    apply pyRound1_bounds
    · split_ifs with hpos
      · have h0 := (tw_bounds controls emap).1
        positivity
      · exact le_refl 0
    · split_ifs with hpos
      · have h1 := (tw_bounds controls emap).2
        rw [div_mul_eq_mul_div, div_le_iff₀ hpos]
        nlinarith [hpos]
      · norm_num

theorem sizeSum_recompute (r : Results) :
    sizeSum (recomputeStats r).1.coverage = sizeSum r.coverage := rfl

/-- Claim C9, amended: `0 ≤ coveragePercentage ≤ 100` and
`0 ≤ qualityScore ≤ 100` for `_calculate_coverage` on any input (both 0
when there are no controls), and the percentage recomputed by each
override operation (which equals the stored and returned
`new_coverage_percentage`) is in `[0, 100]` whenever the five lists hold
at most `totalControls` entries, as invariant I1 provides.  The original
"for all inputs" is refuted by the counterexample: a reassessment after a
manual not-applicable override duplicates the marked control across the
lists (the I1 violation of C1), and on that reachable state a further
override stores and returns a percentage of 200. -/
theorem C9_metric_bounds :
    (∀ (controls : List Control) (emap : EvidenceMap),
      (0 ≤ (calculateCoverage controls emap).coveragePercentage ∧
        (calculateCoverage controls emap).coveragePercentage ≤ 100) ∧
      (0 ≤ (calculateCoverage controls emap).qualityScore ∧
        (calculateCoverage controls emap).qualityScore ≤ 100)) ∧
    (∀ emap : EvidenceMap,
      (calculateCoverage [] emap).coveragePercentage = 0 ∧
      (calculateCoverage [] emap).qualityScore = 0) ∧
    (∀ (res res1 : Results) (cid reason now : String) (pct : ℚ),
      sizeSum res.coverage ≤ res.summary.totalControls →
      markControlNotApplicable res cid reason now = .ok (res1, pct) →
      (0 ≤ pct ∧ pct ≤ 100) ∧ res1.coverage.coveragePercentage = pct) ∧
    (∀ (res res1 : Results) (cid reason now : String) (pct : ℚ),
      sizeSum res.coverage ≤ res.summary.totalControls →
      rejectControlEvidence res cid reason now = .ok (res1, pct) →
      (0 ≤ pct ∧ pct ≤ 100) ∧ res1.coverage.coveragePercentage = pct) ∧
    (∀ (res res1 : Results) (cid tgt : String) (pct : ℚ),
      sizeSum res.coverage ≤ res.summary.totalControls →
      restoreControl res cid = .ok (res1, tgt, pct) →
      (0 ≤ pct ∧ pct ≤ 100) ∧ res1.coverage.coveragePercentage = pct) := by
  refine ⟨?_, ?_, ?_, ?_, ?_⟩
  · exact calculateCoverage_bounds
  · intro emap
    rw [calculateCoverage_pct, calculateCoverage_quality]
    norm_num [pyRound1_zero]
  · intro res res1 cid reason now pct hsz h
    unfold markControlNotApplicable at h
    by_cases hr : reason.trim = ""
    · rw [if_pos hr] at h; exact absurd h (by simp)
    rw [if_neg hr] at h
    cases h4 : findControl4 res.coverage cid with
    | none => rw [h4] at h; exact absurd h (by simp)
    | some pr =>
      obtain ⟨e, src⟩ := pr
      rw [h4] at h
      rw [Except.ok.injEq] at h
      have h1 := congrArg Prod.fst h
      have hp := congrArg Prod.snd h
      simp only at h1 hp
      subst h1 hp
      rcases findControl4_cases h4 with h' | h' | h' | h' <;>
      · obtain ⟨hs, hf⟩ := h'
        subst hs
        have hpos := countIds_pos_of_find hf
        have hc1 := countIds_le_length res.coverage.fullCoverage cid
        have hc2 := countIds_le_length res.coverage.partialCoverage cid
        have hc3 := countIds_le_length res.coverage.noCoverage cid
        have hc4 := countIds_le_length res.coverage.rejectedEvidence cid
        refine ⟨recompute_pct_bounds _ ?_, rfl⟩
        simp [sizeSum, removeByName, List.length_append, length_filterOut]
        unfold sizeSum at hsz
        omega
  · intro res res1 cid reason now pct hsz h
    unfold rejectControlEvidence at h
    by_cases hr : reason.trim = ""
    · rw [if_pos hr] at h; exact absurd h (by simp)
    rw [if_neg hr] at h
    cases h4 : findControl2 res.coverage cid with
    | none => rw [h4] at h; exact absurd h (by simp)
    | some pr =>
      obtain ⟨e, src⟩ := pr
      rw [h4] at h
      rw [Except.ok.injEq] at h
      have h1 := congrArg Prod.fst h
      have hp := congrArg Prod.snd h
      simp only at h1 hp
      subst h1 hp
      rcases findControl2_cases h4 with h' | h' <;>
      · obtain ⟨hs, hf⟩ := h'
        subst hs
        have hpos := countIds_pos_of_find hf
        have hc1 := countIds_le_length res.coverage.fullCoverage cid
        have hc2 := countIds_le_length res.coverage.partialCoverage cid
        refine ⟨recompute_pct_bounds _ ?_, rfl⟩
        simp [sizeSum, removeByName, List.length_append, length_filterOut]
        unfold sizeSum at hsz
        omega
  · intro res res1 cid tgt pct hsz h
    unfold restoreControl at h
    cases h4 : findControlRestore res.coverage cid with
    | none => rw [h4] at h; exact absurd h (by simp)
    | some pr =>
      obtain ⟨e, src⟩ := pr
      rw [h4] at h
      rw [Except.ok.injEq] at h
      have h1 := congrArg Prod.fst h
      have hp := congrArg (fun x => x.2.2) h
      simp only at h1 hp
      subst h1 hp
      rcases findControlRestore_cases h4 with h' | h' <;>
      · obtain ⟨hs, hf⟩ := h'
        subst hs
        have hpos := countIds_pos_of_find hf
        have hc1 := countIds_le_length res.coverage.notApplicable cid
        have hc2 := countIds_le_length res.coverage.rejectedEvidence cid
        refine ⟨recompute_pct_bounds _ ?_, rfl⟩
        refine le_trans (sizeSum_appendByName_le _ _ _) ?_
        simp [sizeSum, removeByName, length_filterOut]
        unfold sizeSum at hsz
        omega

/-- Claim C9, counterexample: on the engine-reachable state built by
mark-not-applicable(A) → reassessment → mark-not-applicable(C) — reachable
because reassessment re-adds the marked control A to `full_coverage`
while keeping it in `not_applicable` — the override recomputation has
`effective_total = 3 − 2 = 1` against two full-coverage entries, and the
handler stores and returns `coverage_percentage = 200`, violating the
claimed bound for all inputs. -/
theorem C9_counterexample :
    (markControlNotApplicable resABreassessed "C" "site decommissioned" "t2").toOption.map
        Prod.snd = some 200 ∧
    resABfinal.coverage.coveragePercentage = 200 ∧
    resABfinal.summary.coveragePercentage = 200 ∧
    ¬ resABfinal.coverage.coveragePercentage ≤ 100 := by
  refine ⟨?_, ?_, ?_, ?_⟩ <;> with_unfolding_all decide

/-- Claim C9, witness: the bounds at Scenario A's computation and at the
Scenario B override. -/
theorem C9_witness :
    (0 ≤ (calculateCoverage [ctrlA, ctrlB, ctrlC] emapA).coveragePercentage ∧
      (calculateCoverage [ctrlA, ctrlB, ctrlC] emapA).coveragePercentage ≤ 100) ∧
    (0 ≤ (calculateCoverage [ctrlA, ctrlB, ctrlC] emapA).qualityScore ∧
      (calculateCoverage [ctrlA, ctrlB, ctrlC] emapA).qualityScore ≤ 100) ∧
    ((0 ≤ (75:ℚ) ∧ (75:ℚ) ≤ 100) ∧ resB.coverage.coveragePercentage = 75) := by
  refine ⟨((C9_metric_bounds.1 [ctrlA, ctrlB, ctrlC] emapA)).1,
    ((C9_metric_bounds.1 [ctrlA, ctrlB, ctrlC] emapA)).2,
    C9_metric_bounds.2.2.1 resA resB "C" "no wireless capability" "t1" 75
      (by with_unfolding_all decide) markB_eq⟩

end ITSG
